import Mathlib

/-!
MRT_ROS_Interface: policy callback, MPC reset, spin and observation publisher

A shallow embedding of `MRT_ROS_Interface::mpcPolicyCallback`,
`MRT_ROS_Interface::resetMpcNode`, `MRT_ROS_Interface::spinMRT`,
`MRT_ROS_Interface::setCurrentObservation` and `MRT_ROS_Interface::publisherWorkerThread`
(`ocs2_comm_interfaces/src/ocs2_ros_interfaces/mrt/MRT_ROS_Interface.cpp`), of the
buffered desired trajectories of `Solver_BASE` (`ocs2_oc/oc_solver/Solver_BASE.h`), and of
`LoopshapingPreComputation` (`ocs2_core/src/loopshaping/LoopshapingPreComputation.cpp`).

The object is an explicit record of its members; the callback is a function from
the record and a message to the record after the call together with the way the
call ended (normal return, a thrown `std::runtime_error`, or an out-of-range
`operator[]`).  Calls to virtual hooks and to the ROS client are recorded in the
ghost member `events_`, in program order.
-/

namespace ocs2

/-! ## Value types -/

/-- Scalars (`scalar_t`, and the `float32` entries of the messages, whose cast to
`scalar_t` is exact) are modelled by rationals. -/
abbrev scalar_t := Rat

abbrev scalar_array_t := List scalar_t

abbrev vector_t := List scalar_t

abbrev vector_array_t := List vector_t

/-- Modelled from the spec: `SystemObservation` (its header is not part of the sources):
a snapshot `time`, `state`, `input`. -/
structure SystemObservation where
  time : scalar_t
  state : vector_t
  input : vector_t
  deriving DecidableEq, Repr

/-- Modelled from the spec: the default-constructed `SystemObservation()`: time zero, empty
state and input. -/
def SystemObservation.default : SystemObservation :=
  { time := 0, state := [], input := [] }

/-- Modelled from the spec: `ModeSchedule` (header not part of the sources): event times and
one mode per interval. `ModeSchedule(a, b)` is the record with those two sequences. -/
structure ModeSchedule where
  eventTimes : scalar_array_t
  modeSequence : List Nat
  deriving DecidableEq, Repr

/-- Modelled from the spec: `CostDesiredTrajectories` (header not part of the sources):
time-stamped desired state and input sequences. -/
structure CostDesiredTrajectories where
  desiredTimeTrajectory : scalar_array_t
  desiredStateTrajectory : vector_array_t
  desiredInputTrajectory : vector_array_t
  deriving DecidableEq, Repr

/-- Modelled from the spec: `CostDesiredTrajectories::clear()` empties the three sequences. -/
def CostDesiredTrajectories.clear (_c : CostDesiredTrajectories) : CostDesiredTrajectories :=
  { desiredTimeTrajectory := [], desiredStateTrajectory := [], desiredInputTrajectory := [] }

/-- The two controller classes instantiated by the callback. -/
inductive ControllerKind where
  | FeedforwardController
  | LinearController
  deriving DecidableEq, Repr

/-- Modelled from the spec: a controller object (`ControllerBase` and its two subclasses are
not part of the sources). It records its dynamic class, the two constructor arguments, and
the two arguments last handed to `unFlatten` (time stamps and the per-segment raw blocks),
of which the reconstructed controller is a deterministic function. -/
structure Controller where
  kind : ControllerKind
  stateDim : Nat
  inputDim : Nat
  timeStamp : scalar_array_t
  flatData : List (List scalar_t)
  deriving DecidableEq, Repr

/-- Modelled from the spec: the object `new FeedforwardController(stateDim, inputDim)` /
`new LinearController(stateDim, inputDim)` (the constructors are not part of the sources). -/
def Controller.new (kind : ControllerKind) (stateDim inputDim : Nat) : Controller :=
  { kind := kind, stateDim := stateDim, inputDim := inputDim, timeStamp := [], flatData := [] }

/-- Modelled from the spec: the call `controller->unFlatten(timeArray, flatArray2)` (not part
of the sources): the controller is rebuilt from the time stamps and the raw blocks. -/
def Controller.unFlatten (c : Controller) (timeArray : scalar_array_t)
    (flatArray2 : List (List scalar_t)) : Controller :=
  { c with timeStamp := timeArray, flatData := flatArray2 }

/-- The members of `PrimalSolution` that the callback writes. -/
structure PrimalSolution where
  timeTrajectory_ : scalar_array_t
  stateTrajectory_ : vector_array_t
  inputTrajectory_ : vector_array_t
  controllerPtr_ : Option Controller
  modeSchedule_ : ModeSchedule
  deriving DecidableEq, Repr

/-- The members of `CommandData` that the callback writes. -/
structure CommandData where
  mpcInitObservation_ : SystemObservation
  mpcCostDesiredTrajectories_ : CostDesiredTrajectories
  deriving DecidableEq, Repr

/-! ## Messages -/

structure mpc_observation where
  time : scalar_t
  state : List scalar_t
  input : List scalar_t
  deriving DecidableEq, Repr

structure mpc_target_trajectories where
  timeTrajectory : List scalar_t
  stateTrajectory : List (List scalar_t)
  inputTrajectory : List (List scalar_t)
  deriving DecidableEq, Repr

structure mode_schedule where
  eventTimes : List scalar_t
  modeSequence : List Nat
  deriving DecidableEq, Repr

structure mpc_state where
  value : List scalar_t
  deriving DecidableEq, Repr

structure mpc_input where
  value : List scalar_t
  deriving DecidableEq, Repr

structure controller_data where
  data : List scalar_t
  deriving DecidableEq, Repr

/-- The message `ocs2_msgs::mpc_flattened_controller`, with the fields the callback reads. -/
structure mpc_flattened_controller where
  controllerIsUpdated : Bool
  initObservation : mpc_observation
  planTargetTrajectories : mpc_target_trajectories
  modeSchedule : mode_schedule
  controllerType : Nat
  timeTrajectory : List scalar_t
  stateTrajectory : List mpc_state
  inputTrajectory : List mpc_input
  data : List controller_data
  deriving DecidableEq, Repr

/-- Modelled from the spec: the message constant `CONTROLLER_FEEDFORWARD` (the message
definition is not part of the sources). -/
def CONTROLLER_FEEDFORWARD : Nat := 1

/-- Modelled from the spec: the message constant `CONTROLLER_LINEAR` (the message definition
is not part of the sources). -/
def CONTROLLER_LINEAR : Nat := 2

/-- The request part of the service message `ocs2_msgs::reset`. -/
structure reset_request where
  reset : Bool
  targetTrajectories : mpc_target_trajectories
  deriving DecidableEq, Repr

/-! ## The object -/

/-- Observable actions of the two member functions, in program order. -/
inductive Event where
  | partitioningTimesUpdate (time : scalar_t)
  | modifyBufferPolicy
  | initCall (initObservation : SystemObservation)
  | waitForExistence
  | rosError (text : String)
  | serviceCall (request : reset_request)
  | rosInfo (text : String)
  deriving DecidableEq, Repr

/-- The members of `MRT_ROS_Interface` (own and inherited from `MRT_BASE`) that
`mpcPolicyCallback` and `resetMpcNode` read or write, and the ghost log `events_`. -/
structure MRT_ROS_Interface where
  primalSolutionBuffer_ : PrimalSolution
  commandBuffer_ : CommandData
  policyUpdatedBuffer_ : Bool
  newPolicyInBuffer_ : Bool
  partitioningTimesBuffer_ : scalar_array_t
  policyReceivedEver_ : Bool
  initPlanObservation_ : SystemObservation
  events_ : List Event
  deriving DecidableEq, Repr

/-- Functions called by the two member functions whose definitions are not part of the
sources: the message conversions of `ros_msg_conversions`, the `MRT_BASE` member
`partitioningTimesUpdate` (a `const` member: it may read the object) and the virtual hook
`modifyBufferPolicy`.  The three `read...` conversions overwrite their output argument. -/
structure Externals where
  readObservationMsg : mpc_observation → SystemObservation
  readTargetTrajectoriesMsg : mpc_target_trajectories → CostDesiredTrajectories
  readModeScheduleMsg : mode_schedule → ModeSchedule
  createTargetTrajectoriesMsg : CostDesiredTrajectories → mpc_target_trajectories
  partitioningTimesUpdate : MRT_ROS_Interface → scalar_t → scalar_array_t → scalar_array_t
  modifyBufferPolicy : CommandData → PrimalSolution → CommandData × PrimalSolution

/-- How a call of `mpcPolicyCallback` ends. -/
inductive Outcome where
  | returned
  | threw (what : String)
  | undefinedBehaviour
  deriving DecidableEq, Repr

/-! ## mpcPolicyCallback -/

def whatEmptyController : String :=
  "MRT_ROS_Interface::mpcPolicyCallback -- Controller must not be empty"

def whatUnknownControllerType : String :=
  "MRT_ROS_Interface::mpcPolicyCallback -- Unknown controllerType"

def whatWrongDataLength : String := "Data has the wrong length"

/-- The `partitionInitMargin` constant `1e-1`. -/
def partitionInitMargin : scalar_t := 1 / 10

/-- The loop `for (size_t i = 0; i < N; i++)` of lines 177-183, started at index `i` with
`remaining = N - i` iterations to go.  Each iteration reads `stateTrajectory[i]`, then
`inputTrajectory[i]`, then appends to the three buffers.  The flag is `false` when an
index was past the end of its array; the buffers are then those at that point. -/
def fillTrajectories (msg : mpc_flattened_controller) :
    Nat → Nat → PrimalSolution → PrimalSolution × Bool
  | 0, _, p => (p, true)
  | remaining + 1, i, p =>
    match msg.stateTrajectory[i]? with
    | none => (p, false)
    | some x =>
      match msg.inputTrajectory[i]? with
      | none => (p, false)
      | some u =>
        match msg.timeTrajectory[i]? with
        | none => (p, false)
        | some t =>
          fillTrajectories msg remaining (i + 1)
            { p with
              timeTrajectory_ := p.timeTrajectory_ ++ [t]
              stateTrajectory_ := p.stateTrajectory_ ++ [x.value]
              inputTrajectory_ := p.inputTrajectory_ ++ [u.value] }

/-- The body of `MRT_ROS_Interface::mpcPolicyCallback`. -/
def mpcPolicyCallback (ext : Externals) (self : MRT_ROS_Interface)
    (msg : mpc_flattened_controller) : MRT_ROS_Interface × Outcome :=
  -- if MPC did not update the policy
  if !msg.controllerIsUpdated then
    ({ self with
        primalSolutionBuffer_ :=
          { timeTrajectory_ := []
            stateTrajectory_ := []
            inputTrajectory_ := []
            controllerPtr_ := none
            modeSchedule_ := { eventTimes := [], modeSequence := [0] } }
        commandBuffer_ :=
          { mpcInitObservation_ := SystemObservation.default
            mpcCostDesiredTrajectories_ := self.commandBuffer_.mpcCostDesiredTrajectories_.clear }
        policyUpdatedBuffer_ := false
        newPolicyInBuffer_ := true },
      Outcome.returned)
  else
    -- lines 153-155
    let self1 : MRT_ROS_Interface :=
      { self with
        commandBuffer_ :=
          { mpcInitObservation_ := ext.readObservationMsg msg.initObservation
            mpcCostDesiredTrajectories_ := ext.readTargetTrajectoriesMsg msg.planTargetTrajectories }
        primalSolutionBuffer_ :=
          { self.primalSolutionBuffer_ with
            modeSchedule_ := ext.readModeScheduleMsg msg.modeSchedule } }
    -- line 157
    let self2 : MRT_ROS_Interface := { self1 with policyUpdatedBuffer_ := msg.controllerIsUpdated }
    -- lines 159-160
    let time := self2.commandBuffer_.mpcInitObservation_.time - partitionInitMargin
    let self3 : MRT_ROS_Interface :=
      { self2 with
        partitioningTimesBuffer_ := ext.partitioningTimesUpdate self2 time self2.partitioningTimesBuffer_
        events_ := self2.events_ ++ [Event.partitioningTimesUpdate time] }
    let N := msg.timeTrajectory.length
    if N = 0 then
      (self3, Outcome.threw whatEmptyController)
    else
      -- lines 168-183
      let cleared : PrimalSolution :=
        { self3.primalSolutionBuffer_ with
          timeTrajectory_ := [], stateTrajectory_ := [], inputTrajectory_ := [] }
      let filled := fillTrajectories msg N 0 cleared
      let self4 : MRT_ROS_Interface := { self3 with primalSolutionBuffer_ := filled.1 }
      if !filled.2 then
        (self4, Outcome.undefinedBehaviour)
      else
        -- lines 175-176: the outer locals; the loop body declares its own pair
        let stateDim : Nat := 0
        let inputDim : Nat := 0
        -- lines 186-197
        let newController : Option Controller :=
          if msg.controllerType = CONTROLLER_FEEDFORWARD then
            some (Controller.new ControllerKind.FeedforwardController stateDim inputDim)
          else if msg.controllerType = CONTROLLER_LINEAR then
            some (Controller.new ControllerKind.LinearController stateDim inputDim)
          else none
        match newController with
        | none => (self4, Outcome.threw whatUnknownControllerType)
        | some controller =>
          let self5 : MRT_ROS_Interface :=
            { self4 with
              primalSolutionBuffer_ :=
                { self4.primalSolutionBuffer_ with controllerPtr_ := some controller } }
          -- lines 199-202
          if msg.data.length ≠ N then
            (self5, Outcome.threw whatWrongDataLength)
          else
            -- lines 204-210
            let controllerDataPtrArray := msg.data.map (fun d => d.data)
            let self6 : MRT_ROS_Interface :=
              { self5 with
                primalSolutionBuffer_ :=
                  { self5.primalSolutionBuffer_ with
                    controllerPtr_ :=
                      some (controller.unFlatten self5.primalSolutionBuffer_.timeTrajectory_
                        controllerDataPtrArray) } }
            -- line 213
            let modified := ext.modifyBufferPolicy self6.commandBuffer_ self6.primalSolutionBuffer_
            let self7 : MRT_ROS_Interface :=
              { self6 with
                commandBuffer_ := modified.1
                primalSolutionBuffer_ := modified.2
                events_ := self6.events_ ++ [Event.modifyBufferPolicy] }
            -- lines 215-219
            let self8 : MRT_ROS_Interface :=
              if !self7.policyReceivedEver_ && self7.policyUpdatedBuffer_ then
                { self7 with
                  policyReceivedEver_ := true
                  initPlanObservation_ := self7.commandBuffer_.mpcInitObservation_
                  events_ := self7.events_ ++ [Event.initCall self7.commandBuffer_.mpcInitObservation_] }
              else self7
            -- line 221
            ({ self8 with newPolicyInBuffer_ := true }, Outcome.returned)

/-- Delivery of a sequence of messages, one callback per message, each call starting from
the object as the previous call left it (also when that call threw). -/
def deliver (ext : Externals) (self : MRT_ROS_Interface)
    (msgs : List mpc_flattened_controller) : MRT_ROS_Interface :=
  msgs.foldl (fun s m => (mpcPolicyCallback ext s m).1) self

/-- The staged bundle: primal-solution buffer and command buffer. -/
def stagedBundle (self : MRT_ROS_Interface) : PrimalSolution × CommandData :=
  (self.primalSolutionBuffer_, self.commandBuffer_)

/-- The staged state named by the callback: the two buffers, `policyUpdatedBuffer_`,
`partitioningTimesBuffer_` and `newPolicyInBuffer_`. -/
def stagedState (self : MRT_ROS_Interface) :
    PrimalSolution × CommandData × Bool × scalar_array_t × Bool :=
  (self.primalSolutionBuffer_, self.commandBuffer_, self.policyUpdatedBuffer_,
    self.partitioningTimesBuffer_, self.newPolicyInBuffer_)

/-- Number of `initCall` invocations recorded in the log. -/
def initCallCount (self : MRT_ROS_Interface) : Nat :=
  (self.events_.filter (fun e => match e with
    | Event.initCall _ => true
    | _ => false)).length

/-- A message is accepted by a call when `controllerIsUpdated` is set and the call returns
normally. -/
def accepted (ext : Externals) (self : MRT_ROS_Interface) (msg : mpc_flattened_controller) :
    Prop :=
  msg.controllerIsUpdated = true ∧ (mpcPolicyCallback ext self msg).2 = Outcome.returned

instance (ext : Externals) (self : MRT_ROS_Interface) (msg : mpc_flattened_controller) :
    Decidable (accepted ext self msg) := by
  unfold accepted; exact inferInstance

/-- The bundle `b` is what the single message `msg` writes: from every prior object the call
on `msg` returns normally and leaves exactly `b` staged, so no part of `b` stems from
an earlier message. -/
def writtenInFullBy (ext : Externals) (msg : mpc_flattened_controller)
    (b : PrimalSolution × CommandData) : Prop :=
  ∀ prior : MRT_ROS_Interface,
    (mpcPolicyCallback ext prior msg).2 = Outcome.returned ∧
      stagedBundle (mpcPolicyCallback ext prior msg).1 = b

/-! ## resetMpcNode -/

/-- Answers of the ROS runtime during one evaluation of the loop condition of line 71:
`waitForExistence(ros::Duration(5.0))`, `ros::ok()`, `ros::master::check()`. -/
structure RosPoll where
  waitForExistence : Bool
  ok : Bool
  masterCheck : Bool
  deriving DecidableEq, Repr

/-- The ROS side seen by `resetMpcNode`: the answers at the k-th evaluation of the loop
condition and the return value of `mpcResetServiceClient_.call`. -/
structure RosWorld where
  polls : Nat → RosPoll
  call : reset_request → Bool

def textRetrying : String := "Failed to call service to reset MPC, retrying..."

def textIsReset : String := "MPC node is reset."

/-- The loop of lines 71-73, from the k-th evaluation of its condition on; `none` when
the fuel runs out before the condition turns false. -/
def waitForService (world : RosWorld) : Nat → Nat → List Event → Option (List Event)
  | 0, _, _ => none
  | fuel + 1, k, events =>
    let p := world.polls k
    let events1 := events ++ [Event.waitForExistence]
    if !p.waitForExistence && p.ok && p.masterCheck then
      waitForService world fuel (k + 1) (events1 ++ [Event.rosError textRetrying])
    else
      some events1

/-- The body of `MRT_ROS_Interface::resetMpcNode`; `none` when the fuel does not suffice for
the wait loop. The value returned by `call` is discarded, as in the source. -/
def resetMpcNode (ext : Externals) (world : RosWorld) (fuel : Nat) (self : MRT_ROS_Interface)
    (initCostDesiredTrajectories : CostDesiredTrajectories) : Option MRT_ROS_Interface :=
  let self1 : MRT_ROS_Interface := { self with policyReceivedEver_ := false }
  let request : reset_request :=
    { reset := true
      targetTrajectories := ext.createTargetTrajectoriesMsg initCostDesiredTrajectories }
  match waitForService world fuel 0 self1.events_ with
  | none => none
  | some events =>
    let _response := world.call request
    some { self1 with
           events_ := events ++ [Event.serviceCall request, Event.rosInfo textIsReset] }

/-! ## Sample data -/

/-- A sample instance of the external functions: field-wise conversions, a partition update
that keeps only the new reference time, and the no-op `modifyBufferPolicy`. -/
def sampleExternals : Externals where
  readObservationMsg m := { time := m.time, state := m.state, input := m.input }
  readTargetTrajectoriesMsg m :=
    { desiredTimeTrajectory := m.timeTrajectory
      desiredStateTrajectory := m.stateTrajectory
      desiredInputTrajectory := m.inputTrajectory }
  readModeScheduleMsg m := { eventTimes := m.eventTimes, modeSequence := m.modeSequence }
  createTargetTrajectoriesMsg c :=
    { timeTrajectory := c.desiredTimeTrajectory
      stateTrajectory := c.desiredStateTrajectory
      inputTrajectory := c.desiredInputTrajectory }
  partitioningTimesUpdate _ time _ := [time]
  modifyBufferPolicy c p := (c, p)

/-- An object with empty buffers, no policy staged and none received. -/
def idleObject : MRT_ROS_Interface where
  primalSolutionBuffer_ :=
    { timeTrajectory_ := [], stateTrajectory_ := [], inputTrajectory_ := []
      controllerPtr_ := none, modeSchedule_ := { eventTimes := [], modeSequence := [0] } }
  commandBuffer_ :=
    { mpcInitObservation_ := SystemObservation.default
      mpcCostDesiredTrajectories_ :=
        { desiredTimeTrajectory := [], desiredStateTrajectory := [], desiredInputTrajectory := [] } }
  policyUpdatedBuffer_ := false
  newPolicyInBuffer_ := false
  partitioningTimesBuffer_ := []
  policyReceivedEver_ := false
  initPlanObservation_ := SystemObservation.default
  events_ := []

/-- A message frame with `controllerIsUpdated = true`, the given init-observation time,
controller type, time grid and numbers of state, input and data samples. -/
def sampleMsg (t0 : scalar_t) (controllerType : Nat) (times : List scalar_t)
    (nState nInput nData : Nat) : mpc_flattened_controller where
  controllerIsUpdated := true
  initObservation := { time := t0, state := [t0], input := [] }
  planTargetTrajectories := { timeTrajectory := [t0], stateTrajectory := [[t0]], inputTrajectory := [[]] }
  modeSchedule := { eventTimes := [t0], modeSequence := [3, 4] }
  controllerType := controllerType
  timeTrajectory := times
  stateTrajectory := List.replicate nState { value := [1, 2] }
  inputTrajectory := List.replicate nInput { value := [7] }
  data := List.replicate nData { data := [5] }

/-- The message with `controllerIsUpdated = false`. -/
def noUpdateMsg : mpc_flattened_controller :=
  { sampleMsg 9 0 [1] 1 1 1 with controllerIsUpdated := false }

/-- An accepted feedforward policy with three samples. -/
def policyA : mpc_flattened_controller := sampleMsg 1 CONTROLLER_FEEDFORWARD [0, 1, 2] 3 3 3

/-- An accepted linear policy with two samples. -/
def policyB : mpc_flattened_controller := sampleMsg 2 CONTROLLER_LINEAR [3, 4] 2 2 2

/-- A policy message with an empty time trajectory. -/
def emptyPolicyMsg : mpc_flattened_controller := sampleMsg 5 CONTROLLER_FEEDFORWARD [] 0 0 0

/-- Sample desired trajectories with one time stamp. -/
def sampleDesired : CostDesiredTrajectories :=
  { desiredTimeTrajectory := [4], desiredStateTrajectory := [[1, 2]]
    desiredInputTrajectory := [[7]] }

/-- A ROS side whose reset service exists at the first poll. -/
def readyWorld : RosWorld where
  polls _ := { waitForExistence := true, ok := true, masterCheck := true }
  call _ := true

/-- A ROS side whose reset service never exists and whose runtime is down (`ros::ok()` is
false) from the first poll on. -/
def downWorld : RosWorld where
  polls _ := { waitForExistence := false, ok := false, masterCheck := true }
  call _ := false

/-! ## Intermediate objects of the callback -/

/-- The command buffer as lines 153-154 leave it. -/
def decodedCommand (ext : Externals) (msg : mpc_flattened_controller) : CommandData :=
  { mpcInitObservation_ := ext.readObservationMsg msg.initObservation
    mpcCostDesiredTrajectories_ := ext.readTargetTrajectoriesMsg msg.planTargetTrajectories }

/-- The object at the call of `partitioningTimesUpdate` (after line 157). -/
def headerObject (ext : Externals) (self : MRT_ROS_Interface) (msg : mpc_flattened_controller) :
    MRT_ROS_Interface :=
  { self with
    commandBuffer_ := decodedCommand ext msg
    primalSolutionBuffer_ :=
      { self.primalSolutionBuffer_ with modeSchedule_ := ext.readModeScheduleMsg msg.modeSchedule }
    policyUpdatedBuffer_ := true }

/-- The primal-solution buffer as line 210 leaves it when no check has failed. -/
def decodedPrimal (ext : Externals) (msg : mpc_flattened_controller) : PrimalSolution :=
  { timeTrajectory_ := msg.timeTrajectory
    stateTrajectory_ := (msg.stateTrajectory.take msg.timeTrajectory.length).map (fun x => x.value)
    inputTrajectory_ := (msg.inputTrajectory.take msg.timeTrajectory.length).map (fun u => u.value)
    controllerPtr_ :=
      some
        { kind :=
            if msg.controllerType = CONTROLLER_FEEDFORWARD then ControllerKind.FeedforwardController
            else ControllerKind.LinearController
          stateDim := 0
          inputDim := 0
          timeStamp := msg.timeTrajectory
          flatData := msg.data.map (fun d => d.data) }
    modeSchedule_ := ext.readModeScheduleMsg msg.modeSchedule }

/-- The checks a message with `controllerIsUpdated = true` has to pass for the call to
return normally. -/
def passesChecks (msg : mpc_flattened_controller) : Prop :=
  msg.timeTrajectory.length ≠ 0 ∧
    msg.timeTrajectory.length ≤ msg.stateTrajectory.length ∧
    msg.timeTrajectory.length ≤ msg.inputTrajectory.length ∧
    (msg.controllerType = CONTROLLER_FEEDFORWARD ∨ msg.controllerType = CONTROLLER_LINEAR) ∧
    msg.data.length = msg.timeTrajectory.length

/-- The object after a message with `controllerIsUpdated = false`. -/
def noUpdateObject (self : MRT_ROS_Interface) : MRT_ROS_Interface :=
  { self with
    primalSolutionBuffer_ :=
      { timeTrajectory_ := [], stateTrajectory_ := [], inputTrajectory_ := []
        controllerPtr_ := none
        modeSchedule_ := { eventTimes := [], modeSequence := [0] } }
    commandBuffer_ :=
      { mpcInitObservation_ := SystemObservation.default
        mpcCostDesiredTrajectories_ :=
          { desiredTimeTrajectory := [], desiredStateTrajectory := []
            desiredInputTrajectory := [] } }
    policyUpdatedBuffer_ := false
    newPolicyInBuffer_ := true }

/-- The reference time handed to `partitioningTimesUpdate`. -/
def partitionReferenceTime (ext : Externals) (msg : mpc_flattened_controller) : scalar_t :=
  (ext.readObservationMsg msg.initObservation).time - partitionInitMargin

/-- The object after line 160. -/
def afterHeaderObject (ext : Externals) (self : MRT_ROS_Interface)
    (msg : mpc_flattened_controller) : MRT_ROS_Interface :=
  { headerObject ext self msg with
    partitioningTimesBuffer_ :=
      ext.partitioningTimesUpdate (headerObject ext self msg) (partitionReferenceTime ext msg)
        self.partitioningTimesBuffer_
    events_ := self.events_ ++ [Event.partitioningTimesUpdate (partitionReferenceTime ext msg)] }

/-- The object after the sample loop (line 183), the controller being the one staged before
the call. -/
def afterLoopObject (ext : Externals) (self : MRT_ROS_Interface)
    (msg : mpc_flattened_controller) : MRT_ROS_Interface :=
  { afterHeaderObject ext self msg with
    primalSolutionBuffer_ :=
      { decodedPrimal ext msg with controllerPtr_ := self.primalSolutionBuffer_.controllerPtr_ } }

/-- The object after the `switch` (line 197) for a known controller type. -/
def afterSwitchObject (ext : Externals) (self : MRT_ROS_Interface)
    (msg : mpc_flattened_controller) : MRT_ROS_Interface :=
  { afterHeaderObject ext self msg with
    primalSolutionBuffer_ :=
      { decodedPrimal ext msg with
        controllerPtr_ :=
          some (Controller.new
            (if msg.controllerType = CONTROLLER_FEEDFORWARD then
              ControllerKind.FeedforwardController
            else ControllerKind.LinearController) 0 0) } }

/-- The object after a call that returns normally on a message with
`controllerIsUpdated = true`. -/
def acceptedObject (ext : Externals) (self : MRT_ROS_Interface)
    (msg : mpc_flattened_controller) : MRT_ROS_Interface :=
  let modified := ext.modifyBufferPolicy (decodedCommand ext msg) (decodedPrimal ext msg)
  { primalSolutionBuffer_ := modified.2
    commandBuffer_ := modified.1
    policyUpdatedBuffer_ := true
    newPolicyInBuffer_ := true
    partitioningTimesBuffer_ := (afterHeaderObject ext self msg).partitioningTimesBuffer_
    policyReceivedEver_ := true
    initPlanObservation_ :=
      if self.policyReceivedEver_ then self.initPlanObservation_ else modified.1.mpcInitObservation_
    events_ :=
      self.events_ ++
        [Event.partitioningTimesUpdate (partitionReferenceTime ext msg), Event.modifyBufferPolicy] ++
        (if self.policyReceivedEver_ then [] else [Event.initCall modified.1.mpcInitObservation_]) }

/-! ## The service calls and partition updates in the log -/

/-- The requests of the reset calls issued on the service client, in order. -/
def serviceCalls (events : List Event) : List reset_request :=
  events.filterMap (fun e => match e with
    | Event.serviceCall request => some request
    | _ => none)

/-- The reference times of the calls of `partitioningTimesUpdate`, in order. -/
def partitionUpdateCalls (events : List Event) : List scalar_t :=
  events.filterMap (fun e => match e with
    | Event.partitioningTimesUpdate time => some time
    | _ => none)

/-- The observations handed to `initCall`, in order. -/
def initCallArguments (events : List Event) : List SystemObservation :=
  events.filterMap (fun e => match e with
    | Event.initCall initObservation => some initObservation
    | _ => none)

/-! ## spinMRT -/

/-- The node as `spinMRT` sees it: the object, the callback queue `mrtCallbackQueue_` with
the policy messages waiting for dispatch (front first), and the ghost list of the messages
handed to `mpcPolicyCallback` so far. -/
structure MrtNode where
  object : MRT_ROS_Interface
  mrtCallbackQueue_ : List mpc_flattened_controller
  dispatched_ : List mpc_flattened_controller

/-- Modelled from the spec: `ros::CallbackQueue::callOne()` (the transport, not part of the
sources): dispatch of at most one queued callback, after which control is handed back to the
caller. With an empty queue nothing is called; otherwise the front message is removed and
handed to the subscribed callback `mpcPolicyCallback`. -/
def callOne (ext : Externals) (node : MrtNode) : MrtNode :=
  match node.mrtCallbackQueue_ with
  | [] => node
  | msg :: rest =>
    { object := (mpcPolicyCallback ext node.object msg).1
      mrtCallbackQueue_ := rest
      dispatched_ := node.dispatched_ ++ [msg] }

/-- The body of `MRT_ROS_Interface::spinMRT`: `mrtCallbackQueue_.callOne();`. -/
def spinMRT (ext : Externals) (node : MrtNode) : MrtNode :=
  callOne ext node

/-! ## The observation publisher (PUBLISH_THREAD build) -/

/-- The members used by `setCurrentObservation` and `publisherWorkerThread`, and the ghost list
of the messages handed to `mpcObservationPublisher_.publish`. -/
structure PublisherState where
  mpcObservationMsg_ : mpc_observation
  mpcObservationMsgBuffer_ : mpc_observation
  readyToPublish_ : Bool
  terminateThread_ : Bool
  published_ : List mpc_observation
  deriving DecidableEq, Repr

/-- Functions used by the publisher whose definitions are not part of the sources: the
conversion `ros_msg_conversions::createObservationMsg`, which overwrites its output argument,
and the value a message is left with after it has been moved from. -/
structure PublisherExternals where
  createObservationMsg : SystemObservation → mpc_observation
  movedFrom : mpc_observation → mpc_observation

/-- The body of `MRT_ROS_Interface::setCurrentObservation`, executed as one atomic step. With
`publishThread` (the build with `PUBLISH_THREAD` defined) the message is left in the mailbox
and `readyToPublish_` is set; without it the message is published at once. -/
def setCurrentObservation (pext : PublisherExternals) (publishThread : Bool)
    (self : PublisherState) (currentObservation : SystemObservation) : PublisherState :=
  let self1 : PublisherState :=
    { self with mpcObservationMsg_ := pext.createObservationMsg currentObservation }
  if publishThread then
    { self1 with readyToPublish_ := true }
  else
    { self1 with published_ := self1.published_ ++ [self1.mpcObservationMsg_] }

/-- What one round of the worker loop does. -/
inductive WorkerStep where
  | blocked
  | exited
  | published
  deriving DecidableEq, Repr

/-- One round of the loop of `MRT_ROS_Interface::publisherWorkerThread`, executed as one atomic
step: the loop is left when `terminateThread_` is set (at the loop head or after the wait);
the wait does not return while neither flag is set; otherwise the mailbox is moved to
`mpcObservationMsgBuffer_`, `readyToPublish_` is cleared and the buffer is published. -/
def publisherWorkerStep (pext : PublisherExternals) (self : PublisherState) :
    PublisherState × WorkerStep :=
  if self.terminateThread_ then
    (self, WorkerStep.exited)
  else if !(self.readyToPublish_ || self.terminateThread_) then
    (self, WorkerStep.blocked)
  else
    let self1 : PublisherState :=
      { self with
        mpcObservationMsgBuffer_ := self.mpcObservationMsg_
        mpcObservationMsg_ := pext.movedFrom self.mpcObservationMsg_ }
    let self2 : PublisherState := { self1 with readyToPublish_ := false }
    ({ self2 with published_ := self2.published_ ++ [self2.mpcObservationMsgBuffer_] },
      WorkerStep.published)

/-! ## The double-buffered hand-off of Solver_BASE -/

/-- The members `costDesiredTrajectoriesBuffer_`, `costDesiredTrajectories_` and
`costDesiredTrajectoriesUpdated_` of `Solver_BASE`. -/
structure Solver_BASE where
  costDesiredTrajectoriesBuffer_ : CostDesiredTrajectories
  costDesiredTrajectories_ : CostDesiredTrajectories
  costDesiredTrajectoriesUpdated_ : Bool
  deriving DecidableEq, Repr

/-- Modelled from the spec: `Solver_BASE::setCostDesiredTrajectories` (declared in
`Solver_BASE.h`, its body is not part of the sources), the `write` of the hand-off: the
value goes into the staging slot and the flag is set. -/
def Solver_BASE.setCostDesiredTrajectories (self : Solver_BASE)
    (costDesiredTrajectories : CostDesiredTrajectories) : Solver_BASE :=
  { self with
    costDesiredTrajectoriesBuffer_ := costDesiredTrajectories
    costDesiredTrajectoriesUpdated_ := true }

/-- Modelled from the spec: `Solver_BASE::updateCostDesiredTrajectories` (declared in
`Solver_BASE.h`, its body is not part of the sources), the `trySwap` of the hand-off: if
the flag is set, the buffered value is swapped to the in-use one, the flag is cleared
and `true` is returned; otherwise `false` is returned and nothing changes. -/
def Solver_BASE.updateCostDesiredTrajectories (self : Solver_BASE) : Solver_BASE × Bool :=
  if self.costDesiredTrajectoriesUpdated_ then
    ({ costDesiredTrajectoriesBuffer_ := self.costDesiredTrajectories_
       costDesiredTrajectories_ := self.costDesiredTrajectoriesBuffer_
       costDesiredTrajectoriesUpdated_ := false }, true)
  else
    (self, false)

/-- The object after `n` further calls of `updateCostDesiredTrajectories`. -/
def Solver_BASE.afterSwaps (self : Solver_BASE) : Nat → Solver_BASE
  | 0 => self
  | n + 1 => (Solver_BASE.afterSwaps self n).updateCostDesiredTrajectories.1

/-! ## Further sample data -/

/-- The sample external functions with a `modifyBufferPolicy` that resets the staged init
observation and empties the staged time trajectory. -/
def tamperingExternals : Externals :=
  { sampleExternals with
    modifyBufferPolicy := fun c p =>
      ({ c with mpcInitObservation_ := SystemObservation.default },
        { p with timeTrajectory_ := [] }) }

/-- A ROS side whose reset service exists at the first poll and whose reset call fails. -/
def failingCallWorld : RosWorld where
  polls _ := { waitForExistence := true, ok := true, masterCheck := true }
  call _ := false

/-- A ROS side whose reset service exists from the third poll on, the runtime being
healthy. -/
def lateWorld : RosWorld where
  polls k := { waitForExistence := decide (2 ≤ k), ok := true, masterCheck := true }
  call _ := true

/-- Sample conversions for the publisher: field-wise conversion; a moved-from message keeps
its time and has empty arrays. -/
def samplePublisherExternals : PublisherExternals where
  createObservationMsg o := { time := o.time, state := o.state, input := o.input }
  movedFrom m := { time := m.time, state := [], input := [] }

/-- A publisher with an empty mailbox, running. -/
def idlePublisher : PublisherState where
  mpcObservationMsg_ := { time := 0, state := [], input := [] }
  mpcObservationMsgBuffer_ := { time := 0, state := [], input := [] }
  readyToPublish_ := false
  terminateThread_ := false
  published_ := []

/-- A sample observation at the given time. -/
def sampleObservation (t : scalar_t) : SystemObservation :=
  { time := t, state := [t, 1], input := [2] }

/-- A solver object with nothing pending. -/
def idleSolver : Solver_BASE where
  costDesiredTrajectoriesBuffer_ :=
    { desiredTimeTrajectory := [], desiredStateTrajectory := [], desiredInputTrajectory := [] }
  costDesiredTrajectories_ :=
    { desiredTimeTrajectory := [], desiredStateTrajectory := [], desiredInputTrajectory := [] }
  costDesiredTrajectoriesUpdated_ := false

/-- Sample desired trajectories with the single time stamp `t`. -/
def desiredAt (t : scalar_t) : CostDesiredTrajectories :=
  { desiredTimeTrajectory := [t], desiredStateTrajectory := [[t]], desiredInputTrajectory := [[]] }

/-! ## Shutdown of the publisher -/

/-- The body of `MRT_ROS_Interface::shutdownPublisher`, executed as one atomic step:
`terminateThread_` is set under the lock; the notification and the `join` change no
member. -/
def shutdownPublisher (self : PublisherState) : PublisherState :=
  { self with terminateThread_ := true }

/-- What can happen to the publisher: a post by `setCurrentObservation` (build with
`PUBLISH_THREAD`) or one round of the worker loop. -/
inductive PublisherAction where
  | post (currentObservation : SystemObservation)
  | worker

/-- One action on the publisher. -/
def publisherStep (pext : PublisherExternals) (self : PublisherState) :
    PublisherAction → PublisherState
  | PublisherAction.post currentObservation =>
    setCurrentObservation pext true self currentObservation
  | PublisherAction.worker => (publisherWorkerStep pext self).1

/-- A run of the publisher: the actions taken one after the other. -/
def publisherRun (pext : PublisherExternals) (self : PublisherState)
    (actions : List PublisherAction) : PublisherState :=
  actions.foldl (publisherStep pext) self

/-! ## LoopshapingPreComputation -/

/-- A flag set of type `Request` (declared outside the sources), reduced to what the code
tests: whether it contains `Request::Cost` (the value of `requestFlags & Request::Cost`),
and the rest of the set. -/
structure Request where
  containsCost : Bool
  others : Nat
  deriving DecidableEq, Repr

/-- The calls a `PreComputation` can receive. -/
inductive PreComputationCall where
  | request (requestFlags : Request) (t : scalar_t) (x u : vector_t)
  | requestPreJump (requestFlags : Request) (t : scalar_t) (x : vector_t)
  | requestFinal (requestFlags : Request) (t : scalar_t) (x : vector_t)
  deriving DecidableEq, Repr

/-- A `PreComputation` object (class declared outside the sources): its ghost record is the
list of the calls it has received, in order; `tag` tells objects of different origin
apart. -/
structure PreComputation where
  tag : Nat
  received : List PreComputationCall
  deriving DecidableEq, Repr

/-- A call received by a `PreComputation` is recorded. -/
def PreComputation.receive (self : PreComputation) (call : PreComputationCall) :
    PreComputation :=
  { self with received := self.received ++ [call] }

/-- The object behind the shared pointer `loopshapingDefinition_` (class
`LoopshapingDefinition`, declared outside the sources): the four maps the code uses. -/
structure LoopshapingDefinition where
  getSystemState : vector_t → vector_t
  getSystemInput : vector_t → vector_t → vector_t
  getFilterState : vector_t → vector_t
  getFilteredInput : vector_t → vector_t → vector_t

/-- The members of `LoopshapingPreComputation`; a null `unique_ptr` is `none`. -/
structure LoopshapingPreComputation where
  systemPreCompPtr_ : Option PreComputation
  filteredSystemPreCompPtr_ : Option PreComputation
  loopshapingDefinition_ : LoopshapingDefinition
  x_system_ : vector_t
  u_system_ : vector_t
  x_filter_ : vector_t
  u_filter_ : vector_t

/-- The constructor `LoopshapingPreComputation(systemPreComputation, loopshapingDefinition)`;
`clone` is the virtual `PreComputation::clone`, which returns a new object. The four caches
are default-constructed. -/
def LoopshapingPreComputation.new (clone : PreComputation → PreComputation)
    (systemPreComputation : PreComputation) (loopshapingDefinition : LoopshapingDefinition) :
    LoopshapingPreComputation :=
  { systemPreCompPtr_ := some (clone systemPreComputation)
    filteredSystemPreCompPtr_ := some (clone systemPreComputation)
    loopshapingDefinition_ := loopshapingDefinition
    x_system_ := [], u_system_ := [], x_filter_ := [], u_filter_ := [] }

/-- The copy constructor `LoopshapingPreComputation(other)`; `none` when it dereferences a
null `other.filteredSystemPreCompPtr_`. Members absent from the initialiser list (the two
pointers before the `if`, the four caches) are default-constructed. -/
def LoopshapingPreComputation.copy (clone : PreComputation → PreComputation)
    (other : LoopshapingPreComputation) : Option LoopshapingPreComputation :=
  let self : LoopshapingPreComputation :=
    { systemPreCompPtr_ := none
      filteredSystemPreCompPtr_ := none
      loopshapingDefinition_ := other.loopshapingDefinition_
      x_system_ := [], u_system_ := [], x_filter_ := [], u_filter_ := [] }
  match other.systemPreCompPtr_ with
  | none => some self
  | some system =>
    match other.filteredSystemPreCompPtr_ with
    | none => none
    | some filtered =>
      some { self with
        systemPreCompPtr_ := some (clone system)
        filteredSystemPreCompPtr_ := some (clone filtered) }

/-- The member `clone()`: `new LoopshapingPreComputation(*this)`. -/
def LoopshapingPreComputation.clone (clone : PreComputation → PreComputation)
    (self : LoopshapingPreComputation) : Option LoopshapingPreComputation :=
  LoopshapingPreComputation.copy clone self

/-- The body of `LoopshapingPreComputation::request`; `none` when it dereferences a null
`filteredSystemPreCompPtr_`. -/
def LoopshapingPreComputation.request (self : LoopshapingPreComputation)
    (requestFlags : Request) (t : scalar_t) (x u : vector_t) :
    Option LoopshapingPreComputation :=
  let self1 : LoopshapingPreComputation :=
    { self with x_system_ := self.loopshapingDefinition_.getSystemState x }
  let self2 : LoopshapingPreComputation :=
    { self1 with u_system_ := self1.loopshapingDefinition_.getSystemInput x u }
  let self3 : LoopshapingPreComputation :=
    { self2 with x_filter_ := self2.loopshapingDefinition_.getFilterState x }
  let self4 : LoopshapingPreComputation :=
    { self3 with u_filter_ := self3.loopshapingDefinition_.getFilteredInput x u }
  match self4.systemPreCompPtr_ with
  | none => some self4
  | some system =>
    let self5 : LoopshapingPreComputation :=
      { self4 with
        systemPreCompPtr_ :=
          some (system.receive
            (PreComputationCall.request requestFlags t self4.x_system_ self4.u_system_)) }
    if requestFlags.containsCost then
      -- state-input cost function is evaluated on both u_system and u_filter.
      match self5.filteredSystemPreCompPtr_ with
      | none => none
      | some filtered =>
        some { self5 with
          filteredSystemPreCompPtr_ :=
            some (filtered.receive
              (PreComputationCall.request requestFlags t self5.x_system_ self5.u_filter_)) }
    else
      some self5

/-- The body of `LoopshapingPreComputation::requestPreJump`. -/
def LoopshapingPreComputation.requestPreJump (self : LoopshapingPreComputation)
    (requestFlags : Request) (t : scalar_t) (x : vector_t) : LoopshapingPreComputation :=
  let self1 : LoopshapingPreComputation :=
    { self with x_system_ := self.loopshapingDefinition_.getSystemState x }
  let self2 : LoopshapingPreComputation :=
    { self1 with x_filter_ := self1.loopshapingDefinition_.getFilterState x }
  match self2.systemPreCompPtr_ with
  | none => self2
  | some system =>
    { self2 with
      systemPreCompPtr_ :=
        some (system.receive (PreComputationCall.requestPreJump requestFlags t self2.x_system_)) }

/-- The body of `LoopshapingPreComputation::requestFinal`. -/
def LoopshapingPreComputation.requestFinal (self : LoopshapingPreComputation)
    (requestFlags : Request) (t : scalar_t) (x : vector_t) : LoopshapingPreComputation :=
  let self1 : LoopshapingPreComputation :=
    { self with x_system_ := self.loopshapingDefinition_.getSystemState x }
  let self2 : LoopshapingPreComputation :=
    { self1 with x_filter_ := self1.loopshapingDefinition_.getFilterState x }
  match self2.systemPreCompPtr_ with
  | none => self2
  | some system =>
    { self2 with
      systemPreCompPtr_ :=
        some (system.receive (PreComputationCall.requestFinal requestFlags t self2.x_system_)) }

/-- The objects a program can hold: those made by the constructor, and those obtained from
such an object by the copy constructor, by `clone()`, or by one of the three request
members. -/
inductive LoopshapingPreComputation.Built (clone : PreComputation → PreComputation) :
    LoopshapingPreComputation → Prop where
  | new (systemPreComputation : PreComputation) (loopshapingDefinition : LoopshapingDefinition) :
      Built clone (LoopshapingPreComputation.new clone systemPreComputation loopshapingDefinition)
  | copy (other result : LoopshapingPreComputation) :
      Built clone other → LoopshapingPreComputation.copy clone other = some result →
        Built clone result
  | clone (self result : LoopshapingPreComputation) :
      Built clone self → LoopshapingPreComputation.clone clone self = some result →
        Built clone result
  | request (self result : LoopshapingPreComputation) (requestFlags : Request) (t : scalar_t)
      (x u : vector_t) :
      Built clone self → self.request requestFlags t x u = some result → Built clone result
  | requestPreJump (self : LoopshapingPreComputation) (requestFlags : Request) (t : scalar_t)
      (x : vector_t) :
      Built clone self → Built clone (self.requestPreJump requestFlags t x)
  | requestFinal (self : LoopshapingPreComputation) (requestFlags : Request) (t : scalar_t)
      (x : vector_t) :
      Built clone self → Built clone (self.requestFinal requestFlags t x)

/-! ## Sample data for the loopshaping pre-computation -/

/-- A sample definition: the first entry of the augmented state is the system state, the
rest the filter state; the system input is the input, the filtered input the filter
state followed by the input. -/
def sampleDefinition : LoopshapingDefinition where
  getSystemState x := x.take 1
  getSystemInput _ u := u
  getFilterState x := x.drop 1
  getFilteredInput x u := x.drop 1 ++ u

/-- A sample system pre-computation that has received no call. -/
def samplePreComputation : PreComputation := { tag := 7, received := [] }

/-- The sample `clone`: a copy. -/
def sampleClone : PreComputation → PreComputation := fun p => p

/-- A flag set with `Request::Cost`. -/
def costFlags : Request := { containsCost := true, others := 2 }

/-- A flag set without `Request::Cost`. -/
def dynamicsFlags : Request := { containsCost := false, others := 8 }

/-- The sample object made by the constructor. -/
def sampleLoopshaping : LoopshapingPreComputation :=
  LoopshapingPreComputation.new sampleClone samplePreComputation sampleDefinition

/-! ## Lemmas on the sample loop -/

theorem fillTrajectories_controllerPtr (msg : mpc_flattened_controller) (n i : Nat)
    (p : PrimalSolution) :
    (fillTrajectories msg n i p).1.controllerPtr_ = p.controllerPtr_ := by
  induction n generalizing i p with
  | zero => rfl
  | succ n ih =>
    unfold fillTrajectories
    cases msg.stateTrajectory[i]? <;> cases msg.inputTrajectory[i]? <;>
      cases msg.timeTrajectory[i]? <;> simp [ih]

theorem fillTrajectories_modeSchedule (msg : mpc_flattened_controller) (n i : Nat)
    (p : PrimalSolution) :
    (fillTrajectories msg n i p).1.modeSchedule_ = p.modeSchedule_ := by
  induction n generalizing i p with
  | zero => rfl
  | succ n ih =>
    unfold fillTrajectories
    cases msg.stateTrajectory[i]? <;> cases msg.inputTrajectory[i]? <;>
      cases msg.timeTrajectory[i]? <;> simp [ih]

/-- The loop completes without an out-of-range index exactly when the three arrays hold
all the indices it visits. -/
theorem fillTrajectories_snd (msg : mpc_flattened_controller) (n i : Nat) (p : PrimalSolution) :
    (fillTrajectories msg n i p).2 = true ↔
      (n = 0 ∨ (i + n ≤ msg.stateTrajectory.length ∧ i + n ≤ msg.inputTrajectory.length ∧
        i + n ≤ msg.timeTrajectory.length)) := by
  induction n generalizing i p with
  | zero => simp [fillTrajectories]
  | succ n ih =>
    unfold fillTrajectories
    rcases hx : msg.stateTrajectory[i]? with _ | x
    · have := List.getElem?_eq_none_iff.mp hx
      simp; omega
    · rcases hu : msg.inputTrajectory[i]? with _ | u
      · have := List.getElem?_eq_none_iff.mp hu
        simp; omega
      · rcases ht : msg.timeTrajectory[i]? with _ | t
        · have := List.getElem?_eq_none_iff.mp ht
          simp; omega
        · have h1 := (List.getElem?_eq_some_iff.mp hx).1
          have h2 := (List.getElem?_eq_some_iff.mp hu).1
          have h3 := (List.getElem?_eq_some_iff.mp ht).1
          simp only [ih]
          constructor
          · rintro (h | h)
            · right; omega
            · right; omega
          · rintro (h | h)
            · omega
            · by_cases hn : n = 0
              · left; exact hn
              · right; omega

/-- A completed loop appends to the three buffers the visited samples, in order. -/
theorem fillTrajectories_fst (msg : mpc_flattened_controller) (n i : Nat) (p : PrimalSolution)
    (h : (fillTrajectories msg n i p).2 = true) :
    (fillTrajectories msg n i p).1 =
      { p with
        timeTrajectory_ := p.timeTrajectory_ ++ (msg.timeTrajectory.drop i).take n
        stateTrajectory_ :=
          p.stateTrajectory_ ++ ((msg.stateTrajectory.drop i).take n).map (fun x => x.value)
        inputTrajectory_ :=
          p.inputTrajectory_ ++ ((msg.inputTrajectory.drop i).take n).map (fun u => u.value) } := by
  induction n generalizing i p with
  | zero => simp [fillTrajectories]
  | succ n ih =>
    unfold fillTrajectories at h ⊢
    rcases hx : msg.stateTrajectory[i]? with _ | x
    · simp [hx] at h
    · rcases hu : msg.inputTrajectory[i]? with _ | u
      · simp [hx, hu] at h
      · rcases ht : msg.timeTrajectory[i]? with _ | t
        · simp [hx, hu, ht] at h
        · simp only [hx, hu, ht] at h
          obtain ⟨h1, e1⟩ := List.getElem?_eq_some_iff.mp hx
          obtain ⟨h2, e2⟩ := List.getElem?_eq_some_iff.mp hu
          obtain ⟨h3, e3⟩ := List.getElem?_eq_some_iff.mp ht
          simp only [ih _ _ h]
          rw [List.drop_eq_getElem_cons h1, List.drop_eq_getElem_cons h2,
            List.drop_eq_getElem_cons h3]
          simp [e1, e2, e3]

/-! ## Lemmas on the callback -/

theorem whatEmpty_ne_whatUnknown : whatEmptyController ≠ whatUnknownControllerType := by decide

theorem whatEmpty_ne_whatWrongLength : whatEmptyController ≠ whatWrongDataLength := by decide

theorem whatUnknown_ne_whatWrongLength : whatUnknownControllerType ≠ whatWrongDataLength := by
  decide

theorem CONTROLLER_LINEAR_ne_FEEDFORWARD : CONTROLLER_LINEAR ≠ CONTROLLER_FEEDFORWARD := by
  decide

/-- The loop started on cleared buffers, when the state and input arrays hold at least as
many samples as the time grid: the first `N` samples are staged. -/
theorem fillTrajectories_cleared (msg : mpc_flattened_controller) (c : Option Controller)
    (ms : ModeSchedule)
    (hx : msg.timeTrajectory.length ≤ msg.stateTrajectory.length)
    (hu : msg.timeTrajectory.length ≤ msg.inputTrajectory.length) :
    fillTrajectories msg msg.timeTrajectory.length 0
        { timeTrajectory_ := [], stateTrajectory_ := [], inputTrajectory_ := []
          controllerPtr_ := c, modeSchedule_ := ms } =
      ({ timeTrajectory_ := msg.timeTrajectory
         stateTrajectory_ :=
           (msg.stateTrajectory.take msg.timeTrajectory.length).map (fun x => x.value)
         inputTrajectory_ :=
           (msg.inputTrajectory.take msg.timeTrajectory.length).map (fun u => u.value)
         controllerPtr_ := c, modeSchedule_ := ms }, true) := by
  have h2 : (fillTrajectories msg msg.timeTrajectory.length 0
        { timeTrajectory_ := [], stateTrajectory_ := [], inputTrajectory_ := []
          controllerPtr_ := c, modeSchedule_ := ms }).2 = true := by
    rw [fillTrajectories_snd]
    right
    omega
  have h1 := fillTrajectories_fst msg msg.timeTrajectory.length 0 _ h2
  refine Prod.ext ?_ h2
  rw [h1]
  simp

/-- The loop started on cleared buffers, when the state or the input array is shorter than
the non-empty time grid: an index runs past the end. -/
theorem fillTrajectories_cleared_short (msg : mpc_flattened_controller) (p : PrimalSolution)
    (h : ¬ (msg.timeTrajectory.length ≤ msg.stateTrajectory.length ∧
        msg.timeTrajectory.length ≤ msg.inputTrajectory.length)) :
    (fillTrajectories msg msg.timeTrajectory.length 0 p).2 = false := by
  rw [← Bool.not_eq_true, fillTrajectories_snd]
  omega

theorem mpcPolicyCallback_of_noUpdate (ext : Externals) (self : MRT_ROS_Interface)
    (msg : mpc_flattened_controller) (h : msg.controllerIsUpdated = false) :
    mpcPolicyCallback ext self msg = (noUpdateObject self, Outcome.returned) := by
  simp [mpcPolicyCallback, h, CostDesiredTrajectories.clear, noUpdateObject]

theorem mpcPolicyCallback_of_empty (ext : Externals) (self : MRT_ROS_Interface)
    (msg : mpc_flattened_controller) (hupd : msg.controllerIsUpdated = true)
    (hN : msg.timeTrajectory.length = 0) :
    mpcPolicyCallback ext self msg =
      (afterHeaderObject ext self msg, Outcome.threw whatEmptyController) := by
  simp [mpcPolicyCallback, hupd, hN, afterHeaderObject, headerObject, decodedCommand,
    partitionReferenceTime]

theorem mpcPolicyCallback_of_short (ext : Externals) (self : MRT_ROS_Interface)
    (msg : mpc_flattened_controller) (hupd : msg.controllerIsUpdated = true)
    (hN : msg.timeTrajectory.length ≠ 0)
    (h : ¬ (msg.timeTrajectory.length ≤ msg.stateTrajectory.length ∧
        msg.timeTrajectory.length ≤ msg.inputTrajectory.length)) :
    ∃ p : PrimalSolution,
      mpcPolicyCallback ext self msg =
        ({ afterHeaderObject ext self msg with primalSolutionBuffer_ := p },
          Outcome.undefinedBehaviour) := by
  refine ⟨(fillTrajectories msg msg.timeTrajectory.length 0
    { timeTrajectory_ := [], stateTrajectory_ := [], inputTrajectory_ := []
      controllerPtr_ := self.primalSolutionBuffer_.controllerPtr_
      modeSchedule_ := ext.readModeScheduleMsg msg.modeSchedule }).1, ?_⟩
  simp [mpcPolicyCallback, hupd, hN, fillTrajectories_cleared_short msg _ h,
    afterHeaderObject, headerObject, decodedCommand, partitionReferenceTime]

theorem mpcPolicyCallback_of_unknown (ext : Externals) (self : MRT_ROS_Interface)
    (msg : mpc_flattened_controller) (hupd : msg.controllerIsUpdated = true)
    (hN : msg.timeTrajectory.length ≠ 0)
    (hx : msg.timeTrajectory.length ≤ msg.stateTrajectory.length)
    (hu : msg.timeTrajectory.length ≤ msg.inputTrajectory.length)
    (h1 : msg.controllerType ≠ CONTROLLER_FEEDFORWARD)
    (h2 : msg.controllerType ≠ CONTROLLER_LINEAR) :
    mpcPolicyCallback ext self msg =
      (afterLoopObject ext self msg, Outcome.threw whatUnknownControllerType) := by
  simp [mpcPolicyCallback, hupd, hN, fillTrajectories_cleared msg _ _ hx hu, h1, h2,
    afterLoopObject, afterHeaderObject, headerObject, decodedCommand, decodedPrimal,
    partitionReferenceTime]

theorem mpcPolicyCallback_of_wrongLength (ext : Externals) (self : MRT_ROS_Interface)
    (msg : mpc_flattened_controller) (hupd : msg.controllerIsUpdated = true)
    (hN : msg.timeTrajectory.length ≠ 0)
    (hx : msg.timeTrajectory.length ≤ msg.stateTrajectory.length)
    (hu : msg.timeTrajectory.length ≤ msg.inputTrajectory.length)
    (hk : msg.controllerType = CONTROLLER_FEEDFORWARD ∨ msg.controllerType = CONTROLLER_LINEAR)
    (hd : msg.data.length ≠ msg.timeTrajectory.length) :
    mpcPolicyCallback ext self msg =
      (afterSwitchObject ext self msg, Outcome.threw whatWrongDataLength) := by
  rcases hk with hk | hk
  · simp [mpcPolicyCallback, hupd, hN, fillTrajectories_cleared msg _ _ hx hu, hk, hd,
      afterSwitchObject, afterHeaderObject, headerObject, decodedCommand, decodedPrimal,
      partitionReferenceTime]
  · simp [mpcPolicyCallback, hupd, hN, fillTrajectories_cleared msg _ _ hx hu, hk, hd,
      CONTROLLER_LINEAR_ne_FEEDFORWARD,
      afterSwitchObject, afterHeaderObject, headerObject, decodedCommand, decodedPrimal,
      partitionReferenceTime]

theorem mpcPolicyCallback_of_passesChecks (ext : Externals) (self : MRT_ROS_Interface)
    (msg : mpc_flattened_controller) (hupd : msg.controllerIsUpdated = true)
    (h : passesChecks msg) :
    mpcPolicyCallback ext self msg = (acceptedObject ext self msg, Outcome.returned) := by
  obtain ⟨hN, hx, hu, hk, hd⟩ := h
  rcases hk with hk | hk <;> cases hr : self.policyReceivedEver_ <;>
    simp [mpcPolicyCallback, hupd, hN, fillTrajectories_cleared msg _ _ hx hu, hk, hd, hr,
      CONTROLLER_LINEAR_ne_FEEDFORWARD, Controller.new, Controller.unFlatten,
      acceptedObject, afterHeaderObject, headerObject, decodedCommand, decodedPrimal,
      partitionReferenceTime]

/-- The six ways a call can go, each with the object it leaves. -/
theorem mpcPolicyCallback_cases (ext : Externals) (self : MRT_ROS_Interface)
    (msg : mpc_flattened_controller) :
    (msg.controllerIsUpdated = false ∧
      mpcPolicyCallback ext self msg = (noUpdateObject self, Outcome.returned)) ∨
    (msg.controllerIsUpdated = true ∧ msg.timeTrajectory.length = 0 ∧
      mpcPolicyCallback ext self msg =
        (afterHeaderObject ext self msg, Outcome.threw whatEmptyController)) ∨
    (msg.controllerIsUpdated = true ∧ msg.timeTrajectory.length ≠ 0 ∧
      ¬ (msg.timeTrajectory.length ≤ msg.stateTrajectory.length ∧
        msg.timeTrajectory.length ≤ msg.inputTrajectory.length) ∧
      ∃ p : PrimalSolution,
        mpcPolicyCallback ext self msg =
          ({ afterHeaderObject ext self msg with primalSolutionBuffer_ := p },
            Outcome.undefinedBehaviour)) ∨
    (msg.controllerIsUpdated = true ∧ msg.timeTrajectory.length ≠ 0 ∧
      (msg.timeTrajectory.length ≤ msg.stateTrajectory.length ∧
        msg.timeTrajectory.length ≤ msg.inputTrajectory.length) ∧
      (msg.controllerType ≠ CONTROLLER_FEEDFORWARD ∧ msg.controllerType ≠ CONTROLLER_LINEAR) ∧
      mpcPolicyCallback ext self msg =
        (afterLoopObject ext self msg, Outcome.threw whatUnknownControllerType)) ∨
    (msg.controllerIsUpdated = true ∧ msg.timeTrajectory.length ≠ 0 ∧
      (msg.timeTrajectory.length ≤ msg.stateTrajectory.length ∧
        msg.timeTrajectory.length ≤ msg.inputTrajectory.length) ∧
      (msg.controllerType = CONTROLLER_FEEDFORWARD ∨ msg.controllerType = CONTROLLER_LINEAR) ∧
      msg.data.length ≠ msg.timeTrajectory.length ∧
      mpcPolicyCallback ext self msg =
        (afterSwitchObject ext self msg, Outcome.threw whatWrongDataLength)) ∨
    (msg.controllerIsUpdated = true ∧ passesChecks msg ∧
      mpcPolicyCallback ext self msg = (acceptedObject ext self msg, Outcome.returned)) := by
  cases hupd : msg.controllerIsUpdated
  · exact Or.inl ⟨rfl, mpcPolicyCallback_of_noUpdate ext self msg hupd⟩
  · by_cases hN : msg.timeTrajectory.length = 0
    · exact Or.inr (Or.inl ⟨rfl, hN, mpcPolicyCallback_of_empty ext self msg hupd hN⟩)
    · by_cases hlen : msg.timeTrajectory.length ≤ msg.stateTrajectory.length ∧
          msg.timeTrajectory.length ≤ msg.inputTrajectory.length
      · by_cases hk : msg.controllerType = CONTROLLER_FEEDFORWARD ∨
            msg.controllerType = CONTROLLER_LINEAR
        · by_cases hd : msg.data.length = msg.timeTrajectory.length
          · exact Or.inr (Or.inr (Or.inr (Or.inr (Or.inr
              ⟨rfl, ⟨hN, hlen.1, hlen.2, hk, hd⟩,
                mpcPolicyCallback_of_passesChecks ext self msg hupd
                  ⟨hN, hlen.1, hlen.2, hk, hd⟩⟩))))
          · exact Or.inr (Or.inr (Or.inr (Or.inr (Or.inl
              ⟨rfl, hN, hlen, hk, hd,
                mpcPolicyCallback_of_wrongLength ext self msg hupd hN hlen.1 hlen.2 hk hd⟩))))
        · have hk1 : msg.controllerType ≠ CONTROLLER_FEEDFORWARD := fun e => hk (Or.inl e)
          have hk2 : msg.controllerType ≠ CONTROLLER_LINEAR := fun e => hk (Or.inr e)
          exact Or.inr (Or.inr (Or.inr (Or.inl
            ⟨rfl, hN, hlen, ⟨hk1, hk2⟩,
              mpcPolicyCallback_of_unknown ext self msg hupd hN hlen.1 hlen.2 hk1 hk2⟩)))
      · exact Or.inr (Or.inr (Or.inl
          ⟨rfl, hN, hlen, mpcPolicyCallback_of_short ext self msg hupd hN hlen⟩))

/-- A message with `controllerIsUpdated = true` makes the call return normally exactly when
it passes the checks. -/
theorem mpcPolicyCallback_returned_iff (ext : Externals) (self : MRT_ROS_Interface)
    (msg : mpc_flattened_controller) (hupd : msg.controllerIsUpdated = true) :
    (mpcPolicyCallback ext self msg).2 = Outcome.returned ↔ passesChecks msg := by
  constructor
  · intro h
    rcases mpcPolicyCallback_cases ext self msg with
      ⟨h0, _⟩ | ⟨_, _, e⟩ | ⟨_, _, _, _, e⟩ | ⟨_, _, _, _, e⟩ | ⟨_, _, _, _, _, e⟩ | ⟨_, hp, _⟩
    · simp [hupd] at h0
    · simp [e] at h
    · simp [e] at h
    · simp [e] at h
    · simp [e] at h
    · exact hp
  · intro h
    rw [mpcPolicyCallback_of_passesChecks ext self msg hupd h]

theorem deliver_nil (ext : Externals) (self : MRT_ROS_Interface) : deliver ext self [] = self :=
  rfl

theorem deliver_cons (ext : Externals) (self : MRT_ROS_Interface)
    (m : mpc_flattened_controller) (ms : List mpc_flattened_controller) :
    deliver ext self (m :: ms) = deliver ext (mpcPolicyCallback ext self m).1 ms := rfl

theorem deliver_append (ext : Externals) (self : MRT_ROS_Interface)
    (xs ys : List mpc_flattened_controller) :
    deliver ext self (xs ++ ys) = deliver ext (deliver ext self xs) ys := by
  simp [deliver, List.foldl_append]

theorem deliver_snoc (ext : Externals) (self : MRT_ROS_Interface)
    (xs : List mpc_flattened_controller) (m : mpc_flattened_controller) :
    deliver ext self (xs ++ [m]) = (mpcPolicyCallback ext (deliver ext self xs) m).1 := by
  simp [deliver, List.foldl_append]

/-! ## Rejected messages and the staged state -/

/-- C1 (counterexample): the message `emptyPolicyMsg` has `controllerIsUpdated = true` and an
empty time trajectory, and the call on it throws "Controller must not be empty"; yet the
staged state after the call differs from the one before: the staged init observation now
carries the time 5 of the rejected message. -/
theorem rejected_message_overwrites_staged_state :
    emptyPolicyMsg.controllerIsUpdated = true ∧
    emptyPolicyMsg.timeTrajectory = [] ∧
    (mpcPolicyCallback sampleExternals idleObject emptyPolicyMsg).2 =
      Outcome.threw whatEmptyController ∧
    idleObject.commandBuffer_.mpcInitObservation_.time = 0 ∧
    (mpcPolicyCallback sampleExternals idleObject
      emptyPolicyMsg).1.commandBuffer_.mpcInitObservation_.time = 5 ∧
    stagedState (mpcPolicyCallback sampleExternals idleObject emptyPolicyMsg).1 ≠
      stagedState idleObject := by
  decide

/-- C1 (amended): when the call on a message with `controllerIsUpdated = true` throws,
`newPolicyInBuffer_` is unchanged, while the command buffer and the mode schedule hold the
values decoded from the rejected message, `policyUpdatedBuffer_` is true and
`partitioningTimesBuffer_` is the result of `partitioningTimesUpdate`; the staged
time, state and input trajectories and the controller are unchanged when the time
trajectory is empty, and the controller is unchanged when the exception is the one for an
unknown controller type. -/
theorem rejected_message_effect (ext : Externals) (self : MRT_ROS_Interface)
    (msg : mpc_flattened_controller) (what : String)
    (hupd : msg.controllerIsUpdated = true)
    (hrej : (mpcPolicyCallback ext self msg).2 = Outcome.threw what) :
    (mpcPolicyCallback ext self msg).1.newPolicyInBuffer_ = self.newPolicyInBuffer_ ∧
    (mpcPolicyCallback ext self msg).1.commandBuffer_.mpcInitObservation_ =
      ext.readObservationMsg msg.initObservation ∧
    (mpcPolicyCallback ext self msg).1.commandBuffer_.mpcCostDesiredTrajectories_ =
      ext.readTargetTrajectoriesMsg msg.planTargetTrajectories ∧
    (mpcPolicyCallback ext self msg).1.primalSolutionBuffer_.modeSchedule_ =
      ext.readModeScheduleMsg msg.modeSchedule ∧
    (mpcPolicyCallback ext self msg).1.policyUpdatedBuffer_ = true ∧
    (mpcPolicyCallback ext self msg).1.partitioningTimesBuffer_ =
      ext.partitioningTimesUpdate (headerObject ext self msg)
        ((ext.readObservationMsg msg.initObservation).time - partitionInitMargin)
        self.partitioningTimesBuffer_ ∧
    (msg.timeTrajectory = [] →
      (mpcPolicyCallback ext self msg).1.primalSolutionBuffer_.timeTrajectory_ =
        self.primalSolutionBuffer_.timeTrajectory_ ∧
      (mpcPolicyCallback ext self msg).1.primalSolutionBuffer_.stateTrajectory_ =
        self.primalSolutionBuffer_.stateTrajectory_ ∧
      (mpcPolicyCallback ext self msg).1.primalSolutionBuffer_.inputTrajectory_ =
        self.primalSolutionBuffer_.inputTrajectory_ ∧
      (mpcPolicyCallback ext self msg).1.primalSolutionBuffer_.controllerPtr_ =
        self.primalSolutionBuffer_.controllerPtr_) ∧
    (what = whatUnknownControllerType →
      (mpcPolicyCallback ext self msg).1.primalSolutionBuffer_.controllerPtr_ =
        self.primalSolutionBuffer_.controllerPtr_) := by
  rcases mpcPolicyCallback_cases ext self msg with
    ⟨h0, _⟩ | ⟨_, hN, e⟩ | ⟨_, _, _, p, e⟩ | ⟨_, hN, _, _, e⟩ | ⟨_, hN, _, _, _, e⟩ | ⟨_, _, e⟩
  · simp [hupd] at h0
  · rw [e] at hrej ⊢
    simp [afterHeaderObject, headerObject, decodedCommand, partitionReferenceTime]
  · simp [e] at hrej
  · rw [e] at hrej ⊢
    have hne : msg.timeTrajectory ≠ [] := fun h => hN (by simp [h])
    simp [afterLoopObject, afterHeaderObject, headerObject, decodedCommand, decodedPrimal,
      partitionReferenceTime, hne]
  · rw [e] at hrej ⊢
    have hne : msg.timeTrajectory ≠ [] := fun h => hN (by simp [h])
    have hw : what ≠ whatUnknownControllerType := by
      simp only [Outcome.threw.injEq] at hrej
      rw [← hrej]
      exact whatUnknown_ne_whatWrongLength.symm
    simp [afterSwitchObject, afterHeaderObject, headerObject, decodedCommand, decodedPrimal,
      partitionReferenceTime, hne, hw]
  · simp [e] at hrej

/-- C1 (witness): the amended statement at `emptyPolicyMsg` delivered to `idleObject`. -/
theorem rejected_message_effect_witness :
    emptyPolicyMsg.controllerIsUpdated = true ∧
    (mpcPolicyCallback sampleExternals idleObject emptyPolicyMsg).2 =
      Outcome.threw whatEmptyController ∧
    (mpcPolicyCallback sampleExternals idleObject emptyPolicyMsg).1.newPolicyInBuffer_ =
      idleObject.newPolicyInBuffer_ ∧
    (mpcPolicyCallback sampleExternals idleObject emptyPolicyMsg).1.policyUpdatedBuffer_ = true :=
  have h := rejected_message_effect sampleExternals idleObject emptyPolicyMsg
    whatEmptyController (by decide) (by decide)
  ⟨by decide, by decide, h.1, h.2.2.2.2.1⟩

/-- C2 (counterexample): deliver the accepted `policyA` and then the rejected
`emptyPolicyMsg` to `idleObject`. Afterwards `newPolicyInBuffer_` is true, the staged time
trajectory is the one of `policyA`, the staged init observation is the one of
`emptyPolicyMsg`, and the staged bundle is not what either message alone writes. -/
theorem rejected_after_accepted_leaves_mixture :
    (deliver sampleExternals idleObject [policyA, emptyPolicyMsg]).newPolicyInBuffer_ = true ∧
    (deliver sampleExternals idleObject
      [policyA, emptyPolicyMsg]).primalSolutionBuffer_.timeTrajectory_ = policyA.timeTrajectory ∧
    (deliver sampleExternals idleObject
      [policyA, emptyPolicyMsg]).commandBuffer_.mpcInitObservation_ =
        sampleExternals.readObservationMsg emptyPolicyMsg.initObservation ∧
    sampleExternals.readObservationMsg emptyPolicyMsg.initObservation ≠
      sampleExternals.readObservationMsg policyA.initObservation ∧
    ¬ ∃ m ∈ [policyA, emptyPolicyMsg],
        writtenInFullBy sampleExternals m
          (stagedBundle (deliver sampleExternals idleObject [policyA, emptyPolicyMsg])) := by
  refine ⟨by decide, by decide, by decide, by decide, ?_⟩
  rintro ⟨m, hm, hw⟩
  simp only [List.mem_cons, List.mem_singleton, List.not_mem_nil, or_false] at hm
  rcases hm with rfl | rfl
  · have h := (hw idleObject).2
    revert h
    decide
  · have h := (hw idleObject).1
    revert h
    decide

/-- C2 (amended): after any sequence of messages followed by a message on which the call
returns normally (an accepted policy or a no-update message), `newPolicyInBuffer_` is
true and the staged bundle is what that last message alone writes, from whatever prior
object. -/
theorem staged_bundle_written_by_last_unrejected (ext : Externals) (self : MRT_ROS_Interface)
    (earlier : List mpc_flattened_controller) (msg : mpc_flattened_controller)
    (hret : (mpcPolicyCallback ext (deliver ext self earlier) msg).2 = Outcome.returned) :
    (deliver ext self (earlier ++ [msg])).newPolicyInBuffer_ = true ∧
    writtenInFullBy ext msg (stagedBundle (deliver ext self (earlier ++ [msg]))) := by
  rw [deliver_snoc]
  cases hupd : msg.controllerIsUpdated
  · refine ⟨by simp [mpcPolicyCallback_of_noUpdate ext _ msg hupd, noUpdateObject], ?_⟩
    intro prior
    simp [mpcPolicyCallback_of_noUpdate ext _ msg hupd, noUpdateObject, stagedBundle]
  · have hp := (mpcPolicyCallback_returned_iff ext _ msg hupd).mp hret
    refine ⟨by simp [mpcPolicyCallback_of_passesChecks ext _ msg hupd hp, acceptedObject], ?_⟩
    intro prior
    simp [mpcPolicyCallback_of_passesChecks ext _ msg hupd hp, acceptedObject, stagedBundle]

/-- C2 (witness): the amended statement at `[policyA, emptyPolicyMsg]` followed by
`policyB`. -/
theorem staged_bundle_written_by_last_unrejected_witness :
    (mpcPolicyCallback sampleExternals
      (deliver sampleExternals idleObject [policyA, emptyPolicyMsg]) policyB).2 =
        Outcome.returned ∧
    (deliver sampleExternals idleObject
      ([policyA, emptyPolicyMsg] ++ [policyB])).newPolicyInBuffer_ = true ∧
    writtenInFullBy sampleExternals policyB
      (stagedBundle (deliver sampleExternals idleObject ([policyA, emptyPolicyMsg] ++ [policyB]))) :=
  ⟨by decide,
    staged_bundle_written_by_last_unrejected sampleExternals idleObject
      [policyA, emptyPolicyMsg] policyB (by decide)⟩

/-! ## The three checks -/

/-- C3: for a message with `controllerIsUpdated = true`, the call throws
"Controller must not be empty" if and only if the time trajectory is empty. -/
theorem empty_policy_error_iff (ext : Externals) (self : MRT_ROS_Interface)
    (msg : mpc_flattened_controller) (hupd : msg.controllerIsUpdated = true) :
    (mpcPolicyCallback ext self msg).2 = Outcome.threw whatEmptyController ↔
      msg.timeTrajectory = [] := by
  constructor
  · intro h
    rcases mpcPolicyCallback_cases ext self msg with
      ⟨h0, _⟩ | ⟨_, hN, _⟩ | ⟨_, _, _, p, e⟩ | ⟨_, _, _, _, e⟩ | ⟨_, _, _, _, _, e⟩ | ⟨_, _, e⟩
    · simp [hupd] at h0
    · exact List.length_eq_zero.mp hN
    · simp [e] at h
    · rw [e] at h
      simp only [Outcome.threw.injEq] at h
      exact absurd h.symm whatEmpty_ne_whatUnknown
    · rw [e] at h
      simp only [Outcome.threw.injEq] at h
      exact absurd h.symm whatEmpty_ne_whatWrongLength
    · simp [e] at h
  · intro h
    rw [mpcPolicyCallback_of_empty ext self msg hupd (by simp [h])]

/-- C3 (witness): the equivalence at `emptyPolicyMsg`. -/
theorem empty_policy_error_iff_witness :
    emptyPolicyMsg.controllerIsUpdated = true ∧
    ((mpcPolicyCallback sampleExternals idleObject emptyPolicyMsg).2 =
        Outcome.threw whatEmptyController ↔ emptyPolicyMsg.timeTrajectory = []) :=
  ⟨by decide, empty_policy_error_iff sampleExternals idleObject emptyPolicyMsg (by decide)⟩

/-- C4 (counterexample): a message with `controllerIsUpdated = true`, three time samples,
two data blocks and the controller type 7 makes the call throw "Unknown controllerType",
not "Data has the wrong length"; and with a known controller type but only two state
samples the loop indexes past the end of the state array before any check of the data
length. -/
theorem wrong_data_length_not_always_reported :
    (sampleMsg 1 7 [0, 1, 2] 3 3 2).controllerIsUpdated = true ∧
    (sampleMsg 1 7 [0, 1, 2] 3 3 2).timeTrajectory.length = 3 ∧
    (sampleMsg 1 7 [0, 1, 2] 3 3 2).data.length = 2 ∧
    (mpcPolicyCallback sampleExternals idleObject (sampleMsg 1 7 [0, 1, 2] 3 3 2)).2 =
      Outcome.threw whatUnknownControllerType ∧
    (mpcPolicyCallback sampleExternals idleObject (sampleMsg 1 7 [0, 1, 2] 3 3 2)).2 ≠
      Outcome.threw whatWrongDataLength ∧
    (sampleMsg 1 CONTROLLER_FEEDFORWARD [0, 1, 2] 2 3 2).stateTrajectory.length = 2 ∧
    (mpcPolicyCallback sampleExternals idleObject
      (sampleMsg 1 CONTROLLER_FEEDFORWARD [0, 1, 2] 2 3 2)).2 = Outcome.undefinedBehaviour := by
  decide

/-- C4 (amended): for a message with `controllerIsUpdated = true`, `N >= 1` time samples, at
least `N` state and `N` input samples and a data length different from `N`, the call throws
"Data has the wrong length" when the controller type is `CONTROLLER_FEEDFORWARD` or
`CONTROLLER_LINEAR`, and throws "Unknown controllerType" otherwise. -/
theorem wrong_data_length_error (ext : Externals) (self : MRT_ROS_Interface)
    (msg : mpc_flattened_controller) (hupd : msg.controllerIsUpdated = true)
    (hN : 1 ≤ msg.timeTrajectory.length)
    (hx : msg.timeTrajectory.length ≤ msg.stateTrajectory.length)
    (hu : msg.timeTrajectory.length ≤ msg.inputTrajectory.length)
    (hd : msg.data.length ≠ msg.timeTrajectory.length) :
    ((msg.controllerType = CONTROLLER_FEEDFORWARD ∨ msg.controllerType = CONTROLLER_LINEAR) →
      (mpcPolicyCallback ext self msg).2 = Outcome.threw whatWrongDataLength) ∧
    (¬ (msg.controllerType = CONTROLLER_FEEDFORWARD ∨ msg.controllerType = CONTROLLER_LINEAR) →
      (mpcPolicyCallback ext self msg).2 = Outcome.threw whatUnknownControllerType) := by
  have hN0 : msg.timeTrajectory.length ≠ 0 := by omega
  constructor
  · intro hk
    rw [mpcPolicyCallback_of_wrongLength ext self msg hupd hN0 hx hu hk hd]
  · intro hk
    rw [mpcPolicyCallback_of_unknown ext self msg hupd hN0 hx hu (fun e => hk (Or.inl e))
      (fun e => hk (Or.inr e))]

/-- C4 (witness): three time, state and input samples, two data blocks, feedforward type. -/
theorem wrong_data_length_error_witness :
    (mpcPolicyCallback sampleExternals idleObject
      (sampleMsg 1 CONTROLLER_FEEDFORWARD [0, 1, 2] 3 3 2)).2 =
        Outcome.threw whatWrongDataLength :=
  (wrong_data_length_error sampleExternals idleObject
    (sampleMsg 1 CONTROLLER_FEEDFORWARD [0, 1, 2] 3 3 2) (by decide) (by decide) (by decide)
    (by decide) (by decide)).1 (by decide)

/-- C5 (the code at the failing input): a message with `controllerIsUpdated = true`, one time
sample, the controller type 7 and an empty state trajectory: the loop reads
`stateTrajectory[0]` past the end of the array (line 178), so the call does not get to
throw "Unknown controllerType". -/
theorem unknown_type_not_reached_on_short_state :
    (sampleMsg 1 7 [0] 0 1 1).controllerIsUpdated = true ∧
    (sampleMsg 1 7 [0] 0 1 1).timeTrajectory ≠ [] ∧
    (sampleMsg 1 7 [0] 0 1 1).controllerType ≠ CONTROLLER_FEEDFORWARD ∧
    (sampleMsg 1 7 [0] 0 1 1).controllerType ≠ CONTROLLER_LINEAR ∧
    (sampleMsg 1 7 [0] 0 1 1).stateTrajectory = [] ∧
    (mpcPolicyCallback sampleExternals idleObject (sampleMsg 1 7 [0] 0 1 1)).2 =
      Outcome.undefinedBehaviour ∧
    (mpcPolicyCallback sampleExternals idleObject (sampleMsg 1 7 [0] 0 1 1)).2 ≠
      Outcome.threw whatUnknownControllerType := by
  decide

/-- The unknown controller type when the sample loop completes: for a message with
`controllerIsUpdated = true`, a non-empty time trajectory of `N` samples, at least `N` state
and `N` input samples, and a controller type that is neither `CONTROLLER_FEEDFORWARD` nor
`CONTROLLER_LINEAR`, the call throws "Unknown controllerType"; it leaves
`newPolicyInBuffer_` and `policyReceivedEver_` as they were and has logged the call of
`partitioningTimesUpdate` only (`policyUpdatedBuffer_` has been set by line 157). -/
theorem unknown_controller_type_error (ext : Externals) (self : MRT_ROS_Interface)
    (msg : mpc_flattened_controller) (hupd : msg.controllerIsUpdated = true)
    (hne : msg.timeTrajectory ≠ [])
    (hx : msg.timeTrajectory.length ≤ msg.stateTrajectory.length)
    (hu : msg.timeTrajectory.length ≤ msg.inputTrajectory.length)
    (h1 : msg.controllerType ≠ CONTROLLER_FEEDFORWARD)
    (h2 : msg.controllerType ≠ CONTROLLER_LINEAR) :
    (mpcPolicyCallback ext self msg).2 = Outcome.threw whatUnknownControllerType ∧
    (mpcPolicyCallback ext self msg).1.newPolicyInBuffer_ = self.newPolicyInBuffer_ ∧
    (mpcPolicyCallback ext self msg).1.policyReceivedEver_ = self.policyReceivedEver_ ∧
    (mpcPolicyCallback ext self msg).1.events_ =
      self.events_ ++
        [Event.partitioningTimesUpdate
          ((ext.readObservationMsg msg.initObservation).time - partitionInitMargin)] := by
  have hN0 : msg.timeTrajectory.length ≠ 0 := fun h => hne (List.length_eq_zero.mp h)
  rw [mpcPolicyCallback_of_unknown ext self msg hupd hN0 hx hu h1 h2]
  simp [afterLoopObject, afterHeaderObject, headerObject, partitionReferenceTime]

/-- An instance of the above: three time, state and input samples and the controller
type 7. -/
theorem unknown_controller_type_error_witness :
    (mpcPolicyCallback sampleExternals idleObject (sampleMsg 1 7 [0, 1, 2] 3 3 3)).2 =
      Outcome.threw whatUnknownControllerType :=
  (unknown_controller_type_error sampleExternals idleObject (sampleMsg 1 7 [0, 1, 2] 3 3 3)
    (by decide) (by decide) (by decide) (by decide) (by decide) (by decide)).1

/-- C6 (the code at the failing inputs): a feedforward message with one time sample and two
state samples is accepted, the call returns normally, flags a new policy and stages a single
state sample, the second one being ignored; a feedforward message with two time samples
and one state sample makes the loop read `stateTrajectory[1]` past the end of the array. -/
theorem trajectory_length_mismatch_not_rejected :
    (sampleMsg 1 CONTROLLER_FEEDFORWARD [0] 2 1 1).timeTrajectory.length = 1 ∧
    (sampleMsg 1 CONTROLLER_FEEDFORWARD [0] 2 1 1).stateTrajectory.length = 2 ∧
    (mpcPolicyCallback sampleExternals idleObject
      (sampleMsg 1 CONTROLLER_FEEDFORWARD [0] 2 1 1)).2 = Outcome.returned ∧
    (mpcPolicyCallback sampleExternals idleObject
      (sampleMsg 1 CONTROLLER_FEEDFORWARD [0] 2 1 1)).1.newPolicyInBuffer_ = true ∧
    (mpcPolicyCallback sampleExternals idleObject
      (sampleMsg 1 CONTROLLER_FEEDFORWARD [0] 2 1 1)).1.primalSolutionBuffer_.stateTrajectory_.length
        = 1 ∧
    (sampleMsg 1 CONTROLLER_FEEDFORWARD [0, 1] 1 2 2).timeTrajectory.length = 2 ∧
    (sampleMsg 1 CONTROLLER_FEEDFORWARD [0, 1] 1 2 2).stateTrajectory.length = 1 ∧
    (mpcPolicyCallback sampleExternals idleObject
      (sampleMsg 1 CONTROLLER_FEEDFORWARD [0, 1] 1 2 2)).2 = Outcome.undefinedBehaviour := by
  decide

/-! ## The no-update message -/

/-- C7: for every prior object and every message with `controllerIsUpdated = false`, the call
returns normally and leaves the staged bundle cleared: empty time, state and input
trajectories, null controller, the mode schedule with no event time and the single mode 0,
a default-constructed init observation, empty desired trajectories,
`policyUpdatedBuffer_ = false` and `newPolicyInBuffer_ = true`. -/
theorem no_update_clears_staged_bundle (ext : Externals) (self : MRT_ROS_Interface)
    (msg : mpc_flattened_controller) (h : msg.controllerIsUpdated = false) :
    (mpcPolicyCallback ext self msg).2 = Outcome.returned ∧
    (mpcPolicyCallback ext self msg).1.primalSolutionBuffer_ =
      { timeTrajectory_ := [], stateTrajectory_ := [], inputTrajectory_ := []
        controllerPtr_ := none
        modeSchedule_ := { eventTimes := [], modeSequence := [0] } } ∧
    (mpcPolicyCallback ext self msg).1.commandBuffer_ =
      { mpcInitObservation_ := SystemObservation.default
        mpcCostDesiredTrajectories_ :=
          { desiredTimeTrajectory := [], desiredStateTrajectory := []
            desiredInputTrajectory := [] } } ∧
    (mpcPolicyCallback ext self msg).1.policyUpdatedBuffer_ = false ∧
    (mpcPolicyCallback ext self msg).1.newPolicyInBuffer_ = true := by
  simp [mpcPolicyCallback, h, CostDesiredTrajectories.clear]

/-- C7 (witness): `noUpdateMsg` delivered after the accepted `policyA`. -/
theorem no_update_clears_staged_bundle_witness :
    noUpdateMsg.controllerIsUpdated = false ∧
    (mpcPolicyCallback sampleExternals (deliver sampleExternals idleObject [policyA])
      noUpdateMsg).1.primalSolutionBuffer_ =
      { timeTrajectory_ := [], stateTrajectory_ := [], inputTrajectory_ := []
        controllerPtr_ := none
        modeSchedule_ := { eventTimes := [], modeSequence := [0] } } :=
  ⟨by decide,
    (no_update_clears_staged_bundle sampleExternals (deliver sampleExternals idleObject [policyA])
      noUpdateMsg (by decide)).2.1⟩

/-! ## The first-policy hook -/

theorem initCallCount_eq_of_events (a b : MRT_ROS_Interface) (h : a.events_ = b.events_) :
    initCallCount a = initCallCount b := by
  simp [initCallCount, h]

/-- One call: an accepted message sets `policyReceivedEver_` and logs one `initCall` if the flag
was clear and none otherwise; any other message leaves both the flag and the number of
`initCall`s as they were. -/
theorem mpcPolicyCallback_initCall_step (ext : Externals) (self : MRT_ROS_Interface)
    (msg : mpc_flattened_controller) :
    (accepted ext self msg →
      (mpcPolicyCallback ext self msg).1.policyReceivedEver_ = true ∧
      initCallCount (mpcPolicyCallback ext self msg).1 =
        initCallCount self + (if self.policyReceivedEver_ then 0 else 1)) ∧
    (¬ accepted ext self msg →
      (mpcPolicyCallback ext self msg).1.policyReceivedEver_ = self.policyReceivedEver_ ∧
      initCallCount (mpcPolicyCallback ext self msg).1 = initCallCount self) := by
  unfold accepted
  rcases mpcPolicyCallback_cases ext self msg with
    ⟨h0, e⟩ | ⟨hupd, _, e⟩ | ⟨hupd, _, _, p, e⟩ | ⟨hupd, _, _, _, e⟩ | ⟨hupd, _, _, _, _, e⟩ |
      ⟨hupd, _, e⟩
  · simp [h0, e, noUpdateObject, initCallCount]
  · simp [hupd, e, afterHeaderObject, headerObject, initCallCount, List.filter_append]
  · simp [hupd, e, afterHeaderObject, headerObject, initCallCount, List.filter_append]
  · simp [hupd, e, afterLoopObject, afterHeaderObject, headerObject, initCallCount,
      List.filter_append]
  · simp [hupd, e, afterSwitchObject, afterHeaderObject, headerObject, initCallCount,
      List.filter_append]
  · cases hr : self.policyReceivedEver_ <;>
      simp [hupd, e, acceptedObject, initCallCount, List.filter_append, hr]

/-- Once a policy has been received, no delivery logs a further `initCall`. -/
theorem deliver_after_received (ext : Externals) (msgs : List mpc_flattened_controller) :
    ∀ self : MRT_ROS_Interface, self.policyReceivedEver_ = true →
      (deliver ext self msgs).policyReceivedEver_ = true ∧
      initCallCount (deliver ext self msgs) = initCallCount self := by
  induction msgs with
  | nil => intro self h; exact ⟨h, rfl⟩
  | cons m ms ih =>
    intro self h
    rw [deliver_cons]
    have step := mpcPolicyCallback_initCall_step ext self m
    by_cases hacc : accepted ext self m
    · obtain ⟨h1, h2⟩ := step.1 hacc
      obtain ⟨h3, h4⟩ := ih _ h1
      refine ⟨h3, ?_⟩
      rw [h4, h2]
      simp [h]
    · obtain ⟨h1, h2⟩ := step.2 hacc
      obtain ⟨h3, h4⟩ := ih _ (h1.trans h)
      exact ⟨h3, h4.trans h2⟩

/-- A delivery in which no message is accepted leaves the flag and the number of `initCall`s
as they were. -/
theorem deliver_none_accepted (ext : Externals) (self : MRT_ROS_Interface)
    (msgs : List mpc_flattened_controller)
    (h : ∀ pre m post, msgs = pre ++ m :: post → ¬ accepted ext (deliver ext self pre) m) :
    (deliver ext self msgs).policyReceivedEver_ = self.policyReceivedEver_ ∧
    initCallCount (deliver ext self msgs) = initCallCount self := by
  induction msgs using List.reverseRecOn with
  | nil => exact ⟨rfl, rfl⟩
  | append_singleton xs x ih =>
    have hxs : ∀ pre m post, xs = pre ++ m :: post → ¬ accepted ext (deliver ext self pre) m := by
      intro pre m post e
      exact h pre m (post ++ [x]) (by simp [e])
    obtain ⟨h1, h2⟩ := ih hxs
    have hx : ¬ accepted ext (deliver ext self xs) x := h xs x [] rfl
    obtain ⟨h3, h4⟩ := (mpcPolicyCallback_initCall_step ext (deliver ext self xs) x).2 hx
    rw [deliver_snoc]
    exact ⟨h3.trans h1, h4.trans h2⟩

/-- Any delivery logs at most one `initCall` when the flag is clear, none when it is set. -/
theorem deliver_initCall_bound (ext : Externals) (msgs : List mpc_flattened_controller) :
    ∀ self : MRT_ROS_Interface,
      initCallCount (deliver ext self msgs) ≤
        initCallCount self + (if self.policyReceivedEver_ then 0 else 1) := by
  induction msgs with
  | nil => intro self; simp [deliver_nil]
  | cons m ms ih =>
    intro self
    rw [deliver_cons]
    have step := mpcPolicyCallback_initCall_step ext self m
    by_cases hacc : accepted ext self m
    · obtain ⟨h1, h2⟩ := step.1 hacc
      rw [(deliver_after_received ext ms _ h1).2, h2]
    · obtain ⟨h1, h2⟩ := step.2 hacc
      have := ih (mpcPolicyCallback ext self m).1
      rw [h1, h2] at this
      exact this

/-- C8: starting with `policyReceivedEver_ = false`, any delivery of messages logs at most one
`initCall`; it logs none when no message is accepted; and when `m` is the first accepted
message, no `initCall` has been logged before `m`, exactly one has been logged once `m`
is processed, and the total over the whole sequence is one. -/
theorem initCall_once_on_first_accepted (ext : Externals) (self : MRT_ROS_Interface)
    (msgs : List mpc_flattened_controller) (h0 : self.policyReceivedEver_ = false) :
    initCallCount (deliver ext self msgs) ≤ initCallCount self + 1 ∧
    ((∀ pre m post, msgs = pre ++ m :: post → ¬ accepted ext (deliver ext self pre) m) →
      initCallCount (deliver ext self msgs) = initCallCount self) ∧
    (∀ pre m post, msgs = pre ++ m :: post →
      (∀ pre1 m1 post1, pre = pre1 ++ m1 :: post1 →
        ¬ accepted ext (deliver ext self pre1) m1) →
      accepted ext (deliver ext self pre) m →
      initCallCount (deliver ext self pre) = initCallCount self ∧
      initCallCount (deliver ext self (pre ++ [m])) = initCallCount self + 1 ∧
      initCallCount (deliver ext self msgs) = initCallCount self + 1) := by
  refine ⟨?_, ?_, ?_⟩
  · have := deliver_initCall_bound ext msgs self
    simpa [h0] using this
  · intro h
    exact (deliver_none_accepted ext self msgs h).2
  · intro pre m post e hpre hacc
    obtain ⟨h1, h2⟩ := deliver_none_accepted ext self pre hpre
    obtain ⟨h3, h4⟩ := (mpcPolicyCallback_initCall_step ext (deliver ext self pre) m).1 hacc
    have h5 : initCallCount (deliver ext self (pre ++ [m])) = initCallCount self + 1 := by
      rw [deliver_snoc, h4, h1, h0, h2]
      simp
    refine ⟨h2, h5, ?_⟩
    have e2 : msgs = (pre ++ [m]) ++ post := by simp [e]
    rw [e2, deliver_append]
    rw [deliver_snoc] at h5 ⊢
    rw [(deliver_after_received ext post _ h3).2, h5]

/-- C8 (witness): the sequence no-update, `policyA`, `policyB` delivered to `idleObject`:
`policyA` is the first accepted message; no `initCall` after the no-update message, one after
`policyA`, one in total. -/
theorem initCall_once_on_first_accepted_witness :
    idleObject.policyReceivedEver_ = false ∧
    initCallCount (deliver sampleExternals idleObject [noUpdateMsg]) = initCallCount idleObject ∧
    initCallCount (deliver sampleExternals idleObject ([noUpdateMsg] ++ [policyA])) =
      initCallCount idleObject + 1 ∧
    initCallCount (deliver sampleExternals idleObject [noUpdateMsg, policyA, policyB]) =
      initCallCount idleObject + 1 :=
  ⟨by decide,
    (initCall_once_on_first_accepted sampleExternals idleObject [noUpdateMsg, policyA, policyB]
      (by decide)).2.2 [noUpdateMsg] policyA [policyB] rfl
      (by
        intro pre1 m1 post1 e
        rcases pre1 with _ | ⟨a, l⟩
        · simp only [List.nil_append, List.cons.injEq] at e
          rw [← e.1]
          decide
        · simp at e)
      (by decide)⟩

/-! ## resetMpcNode -/

/-- The wait loop: if its condition holds at the `n` evaluations from the k-th on and fails
at the next one, then with more than `n` units of fuel the loop ends there, having logged
`n` rounds of a wait and an error message and one final wait. -/
theorem waitForService_exits (world : RosWorld) (n : Nat) :
    ∀ (fuel k : Nat) (events : List Event), n < fuel →
      (∀ j, j < n →
        (!(world.polls (k + j)).waitForExistence && (world.polls (k + j)).ok &&
          (world.polls (k + j)).masterCheck) = true) →
      (!(world.polls (k + n)).waitForExistence && (world.polls (k + n)).ok &&
          (world.polls (k + n)).masterCheck) = false →
      waitForService world fuel k events =
        some (events ++
          (List.replicate n [Event.waitForExistence, Event.rosError textRetrying]).flatten ++
          [Event.waitForExistence]) := by
  induction n with
  | zero =>
    intro fuel k events hfuel _ hexit
    obtain ⟨f, rfl⟩ : ∃ f, fuel = f + 1 := ⟨fuel - 1, by omega⟩
    simp only [Nat.add_zero] at hexit
    simp [waitForService, hexit]
  | succ n ih =>
    intro fuel k events hfuel hretry hexit
    obtain ⟨f, rfl⟩ : ∃ f, fuel = f + 1 := ⟨fuel - 1, by omega⟩
    have h0 := hretry 0 (by omega)
    simp only [Nat.add_zero] at h0
    have hrec := ih f (k + 1) (events ++ [Event.waitForExistence] ++ [Event.rosError textRetrying])
      (by omega)
      (fun j hj => by
        have := hretry (j + 1) (by omega)
        rwa [show k + 1 + j = k + (j + 1) by omega])
      (by rwa [show k + 1 + n = k + (n + 1) by omega])
    unfold waitForService
    simp only [h0, if_true]
    rw [hrec]
    simp [List.replicate_succ]

/-- C9: whenever `resetMpcNode` returns, `policyReceivedEver_` is false in the object it
leaves, whatever it was before; the next accepted message then sets the flag and logs
one more `initCall`, the last event of that call. -/
theorem reset_rearms_initCall (ext : Externals) (world : RosWorld) (fuel : Nat)
    (self after : MRT_ROS_Interface) (initCostDesiredTrajectories : CostDesiredTrajectories)
    (msg : mpc_flattened_controller)
    (hreset : resetMpcNode ext world fuel self initCostDesiredTrajectories = some after)
    (hacc : accepted ext after msg) :
    after.policyReceivedEver_ = false ∧
    initCallCount (mpcPolicyCallback ext after msg).1 = initCallCount after + 1 ∧
    (mpcPolicyCallback ext after msg).1.policyReceivedEver_ = true ∧
    (mpcPolicyCallback ext after msg).1.events_.getLast? =
      some (Event.initCall (mpcPolicyCallback ext after msg).1.commandBuffer_.mpcInitObservation_) := by
  have hflag : after.policyReceivedEver_ = false := by
    unfold resetMpcNode at hreset
    simp only at hreset
    split at hreset
    · exact absurd hreset (by simp)
    · simp only [Option.some.injEq] at hreset
      rw [← hreset]
  obtain ⟨h1, h2⟩ := (mpcPolicyCallback_initCall_step ext after msg).1 hacc
  refine ⟨hflag, by simpa [hflag] using h2, h1, ?_⟩
  have hp := (mpcPolicyCallback_returned_iff ext after msg hacc.1).mp hacc.2
  rw [mpcPolicyCallback_of_passesChecks ext after msg hacc.1 hp]
  simp [acceptedObject, hflag]

/-- C9 (witness): `policyA` has been accepted (one `initCall` logged), then the reset runs
against a ready service, then `policyB` is accepted: a second `initCall` is logged. -/
theorem reset_rearms_initCall_witness :
    (deliver sampleExternals idleObject [policyA]).policyReceivedEver_ = true ∧
    initCallCount (deliver sampleExternals idleObject [policyA]) = 1 ∧
    initCallCount (mpcPolicyCallback sampleExternals
      ((resetMpcNode sampleExternals readyWorld 1 (deliver sampleExternals idleObject [policyA])
        sampleDesired).getD idleObject) policyB).1 = 2 :=
  ⟨by decide, by decide,
    (reset_rearms_initCall sampleExternals readyWorld 1
      (deliver sampleExternals idleObject [policyA])
      ((resetMpcNode sampleExternals readyWorld 1 (deliver sampleExternals idleObject [policyA])
        sampleDesired).getD idleObject)
      sampleDesired policyB rfl (by decide)).2.1⟩

/-- C10 (counterexample): against `downWorld`, whose reset service does not exist and whose
`ros::ok()` is false at the first poll, `resetMpcNode` returns after one wait, having issued
the reset call on the service client and logged "MPC node is reset.". -/
theorem reset_on_unhealthy_runtime_still_calls :
    (downWorld.polls 0).waitForExistence = false ∧
    (downWorld.polls 0).ok = false ∧
    (resetMpcNode sampleExternals downWorld 1 idleObject sampleDesired).map (fun s => s.events_) =
      some [Event.waitForExistence,
        Event.serviceCall
          { reset := true
            targetTrajectories := sampleExternals.createTargetTrajectoriesMsg sampleDesired },
        Event.rosInfo textIsReset] := by
  decide

/-- C10 (amended): if the reset service is unavailable and the runtime healthy at the first
`k` polls, and at the next poll the service is still unavailable while `ros::ok()` or
`ros::master::check()` is false, then `resetMpcNode` (with more than `k` units of fuel)
returns: the wait loop ends at that poll without a further retry, after which the function
issues one reset call on the service client and logs "MPC node is reset."; it leaves
`policyReceivedEver_` false. -/
theorem reset_on_unhealthy_runtime (ext : Externals) (world : RosWorld) (fuel k : Nat)
    (self : MRT_ROS_Interface) (initCostDesiredTrajectories : CostDesiredTrajectories)
    (hfuel : k < fuel)
    (hbefore : ∀ j, j < k →
      (world.polls j).waitForExistence = false ∧ (world.polls j).ok = true ∧
        (world.polls j).masterCheck = true)
    (hdown : (world.polls k).waitForExistence = false ∧
      ((world.polls k).ok = false ∨ (world.polls k).masterCheck = false)) :
    resetMpcNode ext world fuel self initCostDesiredTrajectories =
      some { self with
        policyReceivedEver_ := false
        events_ :=
          self.events_ ++
            (List.replicate k [Event.waitForExistence, Event.rosError textRetrying]).flatten ++
            [Event.waitForExistence,
              Event.serviceCall
                { reset := true
                  targetTrajectories :=
                    ext.createTargetTrajectoriesMsg initCostDesiredTrajectories },
              Event.rosInfo textIsReset] } := by
  have hloop := waitForService_exits world k fuel 0 self.events_ hfuel
    (fun j hj => by
      obtain ⟨h1, h2, h3⟩ := hbefore j hj
      simp [h1, h2, h3])
    (by
      obtain ⟨h1, h2 | h2⟩ := hdown
      · simp [h1, h2]
      · simp [h1, h2])
  unfold resetMpcNode
  simp only [hloop]
  simp

/-- C10 (witness): `downWorld` with no healthy poll before the failing one. -/
theorem reset_on_unhealthy_runtime_witness :
    resetMpcNode sampleExternals downWorld 1 idleObject sampleDesired =
      some { idleObject with
        policyReceivedEver_ := false
        events_ :=
          idleObject.events_ ++
            (List.replicate 0 [Event.waitForExistence, Event.rosError textRetrying]).flatten ++
            [Event.waitForExistence,
              Event.serviceCall
                { reset := true
                  targetTrajectories := sampleExternals.createTargetTrajectoriesMsg sampleDesired },
              Event.rosInfo textIsReset] } :=
  reset_on_unhealthy_runtime sampleExternals downWorld 1 0 idleObject sampleDesired (by decide)
    (fun j hj => absurd hj (Nat.not_lt_zero j)) ⟨rfl, Or.inl rfl⟩

/-! ## The reset call -/

theorem serviceCalls_append (xs ys : List Event) :
    serviceCalls (xs ++ ys) = serviceCalls xs ++ serviceCalls ys := by
  simp [serviceCalls, List.filterMap_append]

theorem serviceCalls_retries (n : Nat) :
    serviceCalls
      (List.replicate n [Event.waitForExistence, Event.rosError textRetrying]).flatten = [] := by
  induction n with
  | zero => rfl
  | succ n ih =>
    rw [List.replicate_succ, List.flatten_cons, serviceCalls_append, ih]
    rfl

/-- The wait loop does not depend on what the reset call returns. -/
theorem waitForService_call_irrelevant (world other : RosWorld) (hpolls : world.polls = other.polls)
    (fuel : Nat) :
    ∀ (k : Nat) (events : List Event),
      waitForService world fuel k events = waitForService other fuel k events := by
  induction fuel with
  | zero => intro k events; rfl
  | succ fuel ih =>
    intro k events
    unfold waitForService
    simp only [hpolls, ih]

theorem resetMpcNode_of_waitForService (ext : Externals) (world : RosWorld) (fuel : Nat)
    (self : MRT_ROS_Interface) (initCostDesiredTrajectories : CostDesiredTrajectories)
    (events : List Event) (h : waitForService world fuel 0 self.events_ = some events) :
    resetMpcNode ext world fuel self initCostDesiredTrajectories =
      some { self with
        policyReceivedEver_ := false
        events_ :=
          events ++
            [Event.serviceCall
                { reset := true
                  targetTrajectories :=
                    ext.createTargetTrajectoriesMsg initCostDesiredTrajectories },
              Event.rosInfo textIsReset] } := by
  unfold resetMpcNode
  simp only [h]

/-- C11: if the reset service is unavailable (the runtime being healthy) at the first `k`
polls and available at the next one, then `resetMpcNode` (with more than `k` units of fuel)
returns, and the reset calls it has issued on the service client are exactly one, whose
request has `reset = true` and `targetTrajectories` equal to
`createTargetTrajectoriesMsg` of the given desired trajectories. -/
theorem reset_issues_one_call (ext : Externals) (world : RosWorld) (fuel k : Nat)
    (self : MRT_ROS_Interface) (initCostDesiredTrajectories : CostDesiredTrajectories)
    (hfuel : k < fuel)
    (hbefore : ∀ j, j < k →
      (world.polls j).waitForExistence = false ∧ (world.polls j).ok = true ∧
        (world.polls j).masterCheck = true)
    (havailable : (world.polls k).waitForExistence = true) :
    ∃ after : MRT_ROS_Interface,
      resetMpcNode ext world fuel self initCostDesiredTrajectories = some after ∧
      serviceCalls after.events_ =
        serviceCalls self.events_ ++
          [{ reset := true
             targetTrajectories :=
               ext.createTargetTrajectoriesMsg initCostDesiredTrajectories }] := by
  have hloop := waitForService_exits world k fuel 0 self.events_ hfuel
    (fun j hj => by
      obtain ⟨h1, h2, h3⟩ := hbefore j hj
      simp [h1, h2, h3])
    (by simp [havailable])
  refine ⟨_, resetMpcNode_of_waitForService ext world fuel self initCostDesiredTrajectories _
    hloop, ?_⟩
  simp only [serviceCalls_append, serviceCalls_retries]
  simp [serviceCalls]

/-- C11 (witness): against `lateWorld` the service exists at the third poll; one call is
issued, with the message form of `sampleDesired`. -/
theorem reset_issues_one_call_witness :
    ∃ after : MRT_ROS_Interface,
      resetMpcNode sampleExternals lateWorld 3 idleObject sampleDesired = some after ∧
      serviceCalls after.events_ =
        serviceCalls idleObject.events_ ++
          [{ reset := true
             targetTrajectories := sampleExternals.createTargetTrajectoriesMsg sampleDesired }] :=
  reset_issues_one_call sampleExternals lateWorld 3 2 idleObject sampleDesired (by decide)
    (fun j hj => by
      have hj2 : ¬ 2 ≤ j := by omega
      simp [lateWorld, hj2])
    (by decide)

/-- C12 (counterexample): against `failingCallWorld` the reset service exists and the reset
call returns false; `resetMpcNode` nevertheless ends by logging "MPC node is reset.", and the
object it leaves is the very one it leaves against `readyWorld`, whose call succeeds. -/
theorem failed_reset_call_reported_as_success :
    (failingCallWorld.polls 0).waitForExistence = true ∧
    failingCallWorld.call
      { reset := true
        targetTrajectories := sampleExternals.createTargetTrajectoriesMsg sampleDesired } = false ∧
    (resetMpcNode sampleExternals failingCallWorld 1 idleObject sampleDesired).map
      (fun s => s.events_.getLast?) = some (some (Event.rosInfo textIsReset)) ∧
    resetMpcNode sampleExternals failingCallWorld 1 idleObject sampleDesired =
      resetMpcNode sampleExternals readyWorld 1 idleObject sampleDesired := by
  decide

/-- The value returned by the reset call has no effect: two ROS sides that answer the polls
alike, whatever their reset calls return, make `resetMpcNode` behave alike. -/
theorem resetMpcNode_call_irrelevant (ext : Externals) (world other : RosWorld) (fuel : Nat)
    (self : MRT_ROS_Interface) (initCostDesiredTrajectories : CostDesiredTrajectories)
    (hpolls : world.polls = other.polls) :
    resetMpcNode ext world fuel self initCostDesiredTrajectories =
      resetMpcNode ext other fuel self initCostDesiredTrajectories := by
  unfold resetMpcNode
  simp only [waitForService_call_irrelevant world other hpolls]

/-- C12 (amended): if the reset service is unavailable (the runtime being healthy) at the
first `k` polls and available at the next one, then `resetMpcNode` (with more than `k` units
of fuel) returns; the object it leaves is the same whatever the reset call returns, true or
false; on the way exactly one reset call has been issued on the service client, and the
last thing done is to log "MPC node is reset.". -/
theorem reset_call_result_discarded (ext : Externals) (world : RosWorld) (fuel k : Nat)
    (self : MRT_ROS_Interface) (initCostDesiredTrajectories : CostDesiredTrajectories)
    (hfuel : k < fuel)
    (hbefore : ∀ j, j < k →
      (world.polls j).waitForExistence = false ∧ (world.polls j).ok = true ∧
        (world.polls j).masterCheck = true)
    (havailable : (world.polls k).waitForExistence = true) :
    ∃ after : MRT_ROS_Interface,
      resetMpcNode ext world fuel self initCostDesiredTrajectories = some after ∧
      (∀ call : reset_request → Bool,
        resetMpcNode ext { polls := world.polls, call := call } fuel self
          initCostDesiredTrajectories = some after) ∧
      serviceCalls after.events_ =
        serviceCalls self.events_ ++
          [{ reset := true
             targetTrajectories :=
               ext.createTargetTrajectoriesMsg initCostDesiredTrajectories }] ∧
      after.events_.getLast? = some (Event.rosInfo textIsReset) := by
  have hloop := waitForService_exits world k fuel 0 self.events_ hfuel
    (fun j hj => by
      obtain ⟨h1, h2, h3⟩ := hbefore j hj
      simp [h1, h2, h3])
    (by simp [havailable])
  have hres := resetMpcNode_of_waitForService ext world fuel self initCostDesiredTrajectories _
    hloop
  refine ⟨_, hres, ?_, ?_, ?_⟩
  · intro call
    rw [resetMpcNode_call_irrelevant ext { polls := world.polls, call := call } world fuel self
      initCostDesiredTrajectories rfl]
    exact hres
  · simp only [serviceCalls_append, serviceCalls_retries]
    simp [serviceCalls]
  · simp

/-- C12 (witness): against `failingCallWorld`, whose service exists at the first poll and whose
reset call returns false. -/
theorem reset_call_result_discarded_witness :
    ∃ after : MRT_ROS_Interface,
      resetMpcNode sampleExternals failingCallWorld 1 idleObject sampleDesired = some after ∧
      (∀ call : reset_request → Bool,
        resetMpcNode sampleExternals { polls := failingCallWorld.polls, call := call } 1
          idleObject sampleDesired = some after) ∧
      serviceCalls after.events_ =
        serviceCalls idleObject.events_ ++
          [{ reset := true
             targetTrajectories :=
               sampleExternals.createTargetTrajectoriesMsg sampleDesired }] ∧
      after.events_.getLast? = some (Event.rosInfo textIsReset) :=
  reset_call_result_discarded sampleExternals failingCallWorld 1 0 idleObject sampleDesired
    (by decide) (fun j hj => absurd hj (Nat.not_lt_zero j)) rfl

/-! ## What an accepted message stages -/

/-- C13 (the code at the failing input): `policyA` is accepted; the last sample of its state
trajectory has size 2 and the last sample of its input trajectory has size 1, but the
staged controller has been constructed with state dimension 0 and input dimension 0. -/
theorem controller_constructed_with_zero_dimensions :
    accepted sampleExternals idleObject policyA ∧
    policyA.stateTrajectory.getLast?.map (fun x => x.value.length) = some 2 ∧
    policyA.inputTrajectory.getLast?.map (fun u => u.value.length) = some 1 ∧
    (mpcPolicyCallback sampleExternals idleObject
      policyA).1.primalSolutionBuffer_.controllerPtr_.map (fun c => (c.stateDim, c.inputDim)) =
        some (0, 0) := by
  decide

/-- C14: with the no-op `modifyBufferPolicy`, an accepted message stages the same
primal-solution buffer, command buffer and `policyUpdatedBuffer_` from any two prior
objects and sets `newPolicyInBuffer_`; what it stages is the decode of the message alone,
and so is the staged bundle after any earlier messages followed by this one. -/
theorem last_writer_wins (ext : Externals) (first second : MRT_ROS_Interface)
    (msg : mpc_flattened_controller)
    (hnoop : ∀ c p, ext.modifyBufferPolicy c p = (c, p))
    (hacc : accepted ext first msg) :
    accepted ext second msg ∧
    (mpcPolicyCallback ext first msg).1.primalSolutionBuffer_ =
      (mpcPolicyCallback ext second msg).1.primalSolutionBuffer_ ∧
    (mpcPolicyCallback ext first msg).1.commandBuffer_ =
      (mpcPolicyCallback ext second msg).1.commandBuffer_ ∧
    (mpcPolicyCallback ext first msg).1.policyUpdatedBuffer_ =
      (mpcPolicyCallback ext second msg).1.policyUpdatedBuffer_ ∧
    (mpcPolicyCallback ext first msg).1.newPolicyInBuffer_ = true ∧
    (mpcPolicyCallback ext second msg).1.newPolicyInBuffer_ = true ∧
    stagedBundle (mpcPolicyCallback ext first msg).1 =
      (decodedPrimal ext msg, decodedCommand ext msg) ∧
    ∀ (self : MRT_ROS_Interface) (earlier : List mpc_flattened_controller),
      stagedBundle (deliver ext self (earlier ++ [msg])) =
        (decodedPrimal ext msg, decodedCommand ext msg) := by
  obtain ⟨hupd, hret⟩ := hacc
  have hp := (mpcPolicyCallback_returned_iff ext first msg hupd).mp hret
  have hall : ∀ s : MRT_ROS_Interface,
      mpcPolicyCallback ext s msg = (acceptedObject ext s msg, Outcome.returned) :=
    fun s => mpcPolicyCallback_of_passesChecks ext s msg hupd hp
  refine ⟨⟨hupd, by rw [hall]⟩, ?_, ?_, ?_, ?_, ?_, ?_, ?_⟩
  · simp [hall, acceptedObject]
  · simp [hall, acceptedObject]
  · simp [hall, acceptedObject]
  · simp [hall, acceptedObject]
  · simp [hall, acceptedObject]
  · simp [hall, acceptedObject, stagedBundle, hnoop]
  · intro self earlier
    rw [deliver_snoc]
    simp [hall, acceptedObject, stagedBundle, hnoop]

/-- C14 (witness): `policyB` staged on `idleObject` and on the object left by `policyA`
followed by the rejected `emptyPolicyMsg`. -/
theorem last_writer_wins_witness :
    accepted sampleExternals idleObject policyB ∧
    (mpcPolicyCallback sampleExternals idleObject policyB).1.primalSolutionBuffer_ =
      (mpcPolicyCallback sampleExternals
        (deliver sampleExternals idleObject [policyA, emptyPolicyMsg])
        policyB).1.primalSolutionBuffer_ ∧
    (mpcPolicyCallback sampleExternals idleObject policyB).1.commandBuffer_ =
      (mpcPolicyCallback sampleExternals
        (deliver sampleExternals idleObject [policyA, emptyPolicyMsg])
        policyB).1.commandBuffer_ :=
  have h := last_writer_wins sampleExternals idleObject
    (deliver sampleExternals idleObject [policyA, emptyPolicyMsg]) policyB
    (fun _ _ => rfl) (by decide)
  ⟨by decide, h.2.1, h.2.2.1⟩

/-! ## The double-buffered hand-off -/

/-- After a non-empty series of writes the staging slot holds the last value written, the flag
is set and the in-use value is untouched. -/
theorem writes_keep_last (writes : List CostDesiredTrajectories) :
    ∀ (self : Solver_BASE) (v : CostDesiredTrajectories), writes.getLast? = some v →
      writes.foldl Solver_BASE.setCostDesiredTrajectories self =
        { costDesiredTrajectoriesBuffer_ := v
          costDesiredTrajectories_ := self.costDesiredTrajectories_
          costDesiredTrajectoriesUpdated_ := true } := by
  induction writes with
  | nil => intro self v h; simp at h
  | cons w ws ih =>
    intro self v h
    cases ws with
    | nil =>
      simp only [List.getLast?_singleton, Option.some.injEq] at h
      simp [Solver_BASE.setCostDesiredTrajectories, h]
    | cons w2 ws2 =>
      rw [List.getLast?_cons_cons] at h
      rw [List.foldl_cons, ih _ v h]
      simp [Solver_BASE.setCostDesiredTrajectories]

/-- Without a pending value, further swaps return false and change nothing. -/
theorem afterSwaps_idle (self : Solver_BASE) (h : self.costDesiredTrajectoriesUpdated_ = false)
    (n : Nat) : self.afterSwaps n = self := by
  induction n with
  | zero => rfl
  | succ n ih =>
    simp [Solver_BASE.afterSwaps, ih, Solver_BASE.updateCostDesiredTrajectories, h]

/-- C15: if the staging slot is written `k > 1` times in a row, the following call of
`updateCostDesiredTrajectories` returns true and adopts the last value written; every
further call without a write in between returns false and leaves the in-use value as it
is. -/
theorem at_most_one_pending (self : Solver_BASE) (writes : List CostDesiredTrajectories)
    (hk : 1 < writes.length) :
    ((writes.foldl Solver_BASE.setCostDesiredTrajectories
      self).updateCostDesiredTrajectories).2 = true ∧
    some ((writes.foldl Solver_BASE.setCostDesiredTrajectories
      self).updateCostDesiredTrajectories).1.costDesiredTrajectories_ = writes.getLast? ∧
    ∀ n : Nat,
      ((((writes.foldl Solver_BASE.setCostDesiredTrajectories
        self).updateCostDesiredTrajectories).1.afterSwaps n).updateCostDesiredTrajectories).2 =
          false ∧
      some ((((writes.foldl Solver_BASE.setCostDesiredTrajectories
        self).updateCostDesiredTrajectories).1.afterSwaps
          n).updateCostDesiredTrajectories).1.costDesiredTrajectories_ = writes.getLast? := by
  obtain ⟨v, hv⟩ : ∃ v, writes.getLast? = some v := by
    cases writes with
    | nil => simp at hk
    | cons w ws => exact ⟨_, List.getLast?_eq_getLast _ (by simp)⟩
  rw [writes_keep_last writes self v hv, hv]
  refine ⟨by simp [Solver_BASE.updateCostDesiredTrajectories],
    by simp [Solver_BASE.updateCostDesiredTrajectories], ?_⟩
  intro n
  rw [afterSwaps_idle _ (by simp [Solver_BASE.updateCostDesiredTrajectories])]
  simp [Solver_BASE.updateCostDesiredTrajectories]

/-- C15 (witness): three writes on `idleSolver`; the swap adopts the third. -/
theorem at_most_one_pending_witness :
    ((([desiredAt 1, desiredAt 2, desiredAt 3].foldl Solver_BASE.setCostDesiredTrajectories
      idleSolver).updateCostDesiredTrajectories).2 = true) ∧
    some ((([desiredAt 1, desiredAt 2, desiredAt 3].foldl Solver_BASE.setCostDesiredTrajectories
      idleSolver).updateCostDesiredTrajectories).1.costDesiredTrajectories_) =
        [desiredAt 1, desiredAt 2, desiredAt 3].getLast? :=
  have h := at_most_one_pending idleSolver [desiredAt 1, desiredAt 2, desiredAt 3] (by decide)
  ⟨h.1, h.2.1⟩

/-! ## spinMRT -/

/-- C16: one call of `spinMRT` hands at most one queued message to `mpcPolicyCallback`, the
front one: the messages dispatched grow by the first element of the queue if there is
one, the object is the one that callback leaves, the rest of the queue stays queued, and
the queue is shorter by at most one, so of `k >= 2` queued messages `k - 1`
remain. -/
theorem spinMRT_dispatches_at_most_one (ext : Externals) (node : MrtNode) :
    (spinMRT ext node).dispatched_ = node.dispatched_ ++ node.mrtCallbackQueue_.take 1 ∧
    (spinMRT ext node).object = deliver ext node.object (node.mrtCallbackQueue_.take 1) ∧
    (spinMRT ext node).mrtCallbackQueue_ = node.mrtCallbackQueue_.drop 1 ∧
    (spinMRT ext node).mrtCallbackQueue_.length = node.mrtCallbackQueue_.length - 1 := by
  unfold spinMRT callOne
  cases h : node.mrtCallbackQueue_ with
  | nil => simp [deliver_nil, h]
  | cons m rest => simp [deliver_cons, deliver_nil]

/-! ## The observation mailbox -/

/-- A series of posts leaves the publisher as the last post alone does. -/
theorem posts_keep_last (pext : PublisherExternals) (observations : List SystemObservation) :
    ∀ (self : PublisherState) (last : SystemObservation),
      (observations ++ [last]).foldl (setCurrentObservation pext true) self =
        setCurrentObservation pext true self last := by
  induction observations with
  | nil => intro self last; rfl
  | cons o os ih =>
    intro self last
    rw [List.cons_append, List.foldl_cons, ih]
    simp [setCurrentObservation]

/-- C17: in the build with the publisher thread, after `k >= 1` posts with no worker step in
between (the worker not being told to terminate), the publisher is in the state the last
post alone leaves; the next worker step publishes exactly one message, the one built from
the last observation posted, and clears `readyToPublish_`. -/
theorem latest_observation_wins (pext : PublisherExternals) (self : PublisherState)
    (observations : List SystemObservation) (last : SystemObservation)
    (hrun : self.terminateThread_ = false) :
    (observations ++ [last]).foldl (setCurrentObservation pext true) self =
      setCurrentObservation pext true self last ∧
    (publisherWorkerStep pext
      ((observations ++ [last]).foldl (setCurrentObservation pext true) self)).2 =
        WorkerStep.published ∧
    (publisherWorkerStep pext
      ((observations ++ [last]).foldl (setCurrentObservation pext true) self)).1.published_ =
        self.published_ ++ [pext.createObservationMsg last] ∧
    (publisherWorkerStep pext
      ((observations ++ [last]).foldl (setCurrentObservation pext true) self)).1.readyToPublish_ =
        false := by
  rw [posts_keep_last]
  simp [setCurrentObservation, publisherWorkerStep, hrun]

/-- C17 (witness): three observations posted to `idlePublisher`; the worker publishes the
third. -/
theorem latest_observation_wins_witness :
    idlePublisher.terminateThread_ = false ∧
    (publisherWorkerStep samplePublisherExternals
      (([sampleObservation 1, sampleObservation 2] ++ [sampleObservation 3]).foldl
        (setCurrentObservation samplePublisherExternals true) idlePublisher)).1.published_ =
        idlePublisher.published_ ++
          [samplePublisherExternals.createObservationMsg (sampleObservation 3)] :=
  ⟨rfl,
    (latest_observation_wins samplePublisherExternals idlePublisher
      [sampleObservation 1, sampleObservation 2] (sampleObservation 3) rfl).2.2.1⟩

/-! ## The staged trajectories and controller -/

/-- C18 (counterexample): with a `modifyBufferPolicy` that empties the staged time trajectory
(`tamperingExternals`), the accepted `policyA`, whose time trajectory has three samples,
leaves an empty staged time trajectory. -/
theorem staged_trajectory_changed_by_hook :
    accepted tamperingExternals idleObject policyA ∧
    policyA.timeTrajectory.length = 3 ∧
    (mpcPolicyCallback tamperingExternals idleObject
      policyA).1.primalSolutionBuffer_.timeTrajectory_ = [] ∧
    (mpcPolicyCallback tamperingExternals idleObject
      policyA).1.primalSolutionBuffer_.timeTrajectory_ ≠ policyA.timeTrajectory := by
  decide

/-- C18 (amended): with the no-op `modifyBufferPolicy`, after an accepted message with `N`
time samples the staged time trajectory is the message's, the staged state and input
trajectories have length `N` and their i-th entries are the values of the message's i-th
state and input samples, the staged controller is a `FeedforwardController` for
`CONTROLLER_FEEDFORWARD` and a `LinearController` for `CONTROLLER_LINEAR`, and it is the
result of `unFlatten` on the staged time trajectory and the `N` data blocks in message
order. -/
theorem accepted_message_staged_primal (ext : Externals) (self : MRT_ROS_Interface)
    (msg : mpc_flattened_controller)
    (hnoop : ∀ c p, ext.modifyBufferPolicy c p = (c, p))
    (hacc : accepted ext self msg) :
    (mpcPolicyCallback ext self msg).1.primalSolutionBuffer_.timeTrajectory_ =
      msg.timeTrajectory ∧
    (mpcPolicyCallback ext self msg).1.primalSolutionBuffer_.stateTrajectory_.length =
      msg.timeTrajectory.length ∧
    (mpcPolicyCallback ext self msg).1.primalSolutionBuffer_.inputTrajectory_.length =
      msg.timeTrajectory.length ∧
    (∀ i, i < msg.timeTrajectory.length →
      (mpcPolicyCallback ext self msg).1.primalSolutionBuffer_.stateTrajectory_[i]? =
        msg.stateTrajectory[i]?.map (fun x => x.value) ∧
      (mpcPolicyCallback ext self msg).1.primalSolutionBuffer_.inputTrajectory_[i]? =
        msg.inputTrajectory[i]?.map (fun u => u.value)) ∧
    msg.data.length = msg.timeTrajectory.length ∧
    ∃ c : Controller,
      (mpcPolicyCallback ext self msg).1.primalSolutionBuffer_.controllerPtr_ = some c ∧
      (msg.controllerType = CONTROLLER_FEEDFORWARD →
        c.kind = ControllerKind.FeedforwardController) ∧
      (msg.controllerType = CONTROLLER_LINEAR → c.kind = ControllerKind.LinearController) ∧
      c = (Controller.new c.kind c.stateDim c.inputDim).unFlatten
        (mpcPolicyCallback ext self msg).1.primalSolutionBuffer_.timeTrajectory_
        (msg.data.map (fun d => d.data)) := by
  obtain ⟨hupd, hret⟩ := hacc
  have hp := (mpcPolicyCallback_returned_iff ext self msg hupd).mp hret
  rw [mpcPolicyCallback_of_passesChecks ext self msg hupd hp]
  obtain ⟨hN, hx, hu, hk, hd⟩ := hp
  refine ⟨by simp [acceptedObject, hnoop, decodedPrimal],
    by simp [acceptedObject, hnoop, decodedPrimal, hx],
    by simp [acceptedObject, hnoop, decodedPrimal, hu], ?_, hd, ?_⟩
  · intro i hi
    simp [acceptedObject, hnoop, decodedPrimal, List.getElem?_map, List.getElem?_take, hi]
  · refine ⟨{ kind :=
                if msg.controllerType = CONTROLLER_FEEDFORWARD then
                  ControllerKind.FeedforwardController
                else ControllerKind.LinearController
              stateDim := 0, inputDim := 0, timeStamp := msg.timeTrajectory
              flatData := msg.data.map (fun d => d.data) },
      by simp [acceptedObject, hnoop, decodedPrimal], ?_, ?_, ?_⟩
    · intro h
      simp [h]
    · intro h
      simp [h, CONTROLLER_LINEAR_ne_FEEDFORWARD]
    · simp [Controller.new, Controller.unFlatten, acceptedObject, hnoop, decodedPrimal]

/-- C18 (witness): `policyA` on `idleObject` with the no-op hook. -/
theorem accepted_message_staged_primal_witness :
    accepted sampleExternals idleObject policyA ∧
    (mpcPolicyCallback sampleExternals idleObject
      policyA).1.primalSolutionBuffer_.timeTrajectory_ = policyA.timeTrajectory :=
  ⟨by decide,
    (accepted_message_staged_primal sampleExternals idleObject policyA (fun _ _ => rfl)
      (by decide)).1⟩

/-! ## The partition update -/

/-- C19 (counterexample): the call on `emptyPolicyMsg` throws "Controller must not be empty",
yet it has called `partitioningTimesUpdate` once and `partitioningTimesBuffer_`, empty
before, is no longer what it was. -/
theorem rejected_message_updates_partition :
    (mpcPolicyCallback sampleExternals idleObject emptyPolicyMsg).2 =
      Outcome.threw whatEmptyController ∧
    idleObject.partitioningTimesBuffer_ = [] ∧
    (mpcPolicyCallback sampleExternals idleObject emptyPolicyMsg).1.partitioningTimesBuffer_ ≠
      idleObject.partitioningTimesBuffer_ ∧
    (partitionUpdateCalls
      (mpcPolicyCallback sampleExternals idleObject emptyPolicyMsg).1.events_).length =
      (partitionUpdateCalls idleObject.events_).length + 1 := by
  decide

/-- C19 (amended): for every message with `controllerIsUpdated = true`, accepted or not, the
call invokes `partitioningTimesUpdate` exactly once, on `partitioningTimesBuffer_` and with
the decoded init observation time minus the margin 0.1 as reference time, and
`partitioningTimesBuffer_` holds its result; for a message with
`controllerIsUpdated = false` it is not invoked and `partitioningTimesBuffer_` is
unchanged. -/
theorem partition_update_once_per_updated_message (ext : Externals) (self : MRT_ROS_Interface)
    (msg : mpc_flattened_controller) :
    partitionInitMargin = 1 / 10 ∧
    (msg.controllerIsUpdated = true →
      partitionUpdateCalls (mpcPolicyCallback ext self msg).1.events_ =
        partitionUpdateCalls self.events_ ++
          [(ext.readObservationMsg msg.initObservation).time - partitionInitMargin] ∧
      (mpcPolicyCallback ext self msg).1.partitioningTimesBuffer_ =
        ext.partitioningTimesUpdate (headerObject ext self msg)
          ((ext.readObservationMsg msg.initObservation).time - partitionInitMargin)
          self.partitioningTimesBuffer_) ∧
    (msg.controllerIsUpdated = false →
      partitionUpdateCalls (mpcPolicyCallback ext self msg).1.events_ =
        partitionUpdateCalls self.events_ ∧
      (mpcPolicyCallback ext self msg).1.partitioningTimesBuffer_ =
        self.partitioningTimesBuffer_) := by
  refine ⟨rfl, ?_, ?_⟩
  · intro hupd
    rcases mpcPolicyCallback_cases ext self msg with
      ⟨h0, _⟩ | ⟨_, _, e⟩ | ⟨_, _, _, p, e⟩ | ⟨_, _, _, _, e⟩ | ⟨_, _, _, _, _, e⟩ | ⟨_, _, e⟩
    · simp [hupd] at h0
    · simp [e, afterHeaderObject, headerObject, partitionReferenceTime, partitionUpdateCalls,
        List.filterMap_append]
    · simp [e, afterHeaderObject, headerObject, partitionReferenceTime, partitionUpdateCalls,
        List.filterMap_append]
    · simp [e, afterLoopObject, afterHeaderObject, headerObject, partitionReferenceTime,
        partitionUpdateCalls, List.filterMap_append]
    · simp [e, afterSwitchObject, afterHeaderObject, headerObject, partitionReferenceTime,
        partitionUpdateCalls, List.filterMap_append]
    · cases hr : self.policyReceivedEver_ <;>
        simp [e, acceptedObject, afterHeaderObject, headerObject, partitionReferenceTime,
          partitionUpdateCalls, List.filterMap_append, hr]
  · intro h0
    simp [mpcPolicyCallback_of_noUpdate ext self msg h0, noUpdateObject]

/-- C19 (witness): the accepted `policyA` and the message `noUpdateMsg` on `idleObject`. -/
theorem partition_update_once_per_updated_message_witness :
    policyA.controllerIsUpdated = true ∧
    partitionUpdateCalls (mpcPolicyCallback sampleExternals idleObject policyA).1.events_ =
      partitionUpdateCalls idleObject.events_ ++
        [(sampleExternals.readObservationMsg policyA.initObservation).time -
          partitionInitMargin] ∧
    noUpdateMsg.controllerIsUpdated = false ∧
    (mpcPolicyCallback sampleExternals idleObject noUpdateMsg).1.partitioningTimesBuffer_ =
      idleObject.partitioningTimesBuffer_ :=
  ⟨by decide,
    ((partition_update_once_per_updated_message sampleExternals idleObject policyA).2.1
      (by decide)).1,
    by decide,
    ((partition_update_once_per_updated_message sampleExternals idleObject noUpdateMsg).2.2
      (by decide)).2⟩

/-! ## The observation handed to the first-policy hook -/

/-- C20 (counterexample): with a `modifyBufferPolicy` that resets the staged init observation
(`tamperingExternals`), the first accepted policy `policyA` leaves in `initPlanObservation_`,
and hands to `initCall`, the default observation written by the hook, not the observation
decoded from the message. -/
theorem initCall_sees_hook_modified_observation :
    idleObject.policyReceivedEver_ = false ∧
    accepted tamperingExternals idleObject policyA ∧
    tamperingExternals.readObservationMsg policyA.initObservation ≠ SystemObservation.default ∧
    (mpcPolicyCallback tamperingExternals idleObject policyA).1.initPlanObservation_ =
      SystemObservation.default ∧
    initCallArguments (mpcPolicyCallback tamperingExternals idleObject policyA).1.events_ =
      [SystemObservation.default] := by
  decide

/-- C20 (amended): on the first accepted policy, the observation stored in
`initPlanObservation_` and handed to `initCall` (once) is the staged init observation as
`modifyBufferPolicy` has left it; it is the observation decoded from the message's
`initObservation` field whenever the hook leaves the init observation of the command
buffer as it is. -/
theorem initCall_sees_staged_observation (ext : Externals) (self : MRT_ROS_Interface)
    (msg : mpc_flattened_controller)
    (hfirst : self.policyReceivedEver_ = false)
    (hacc : accepted ext self msg) :
    (mpcPolicyCallback ext self msg).1.initPlanObservation_ =
      (mpcPolicyCallback ext self msg).1.commandBuffer_.mpcInitObservation_ ∧
    initCallArguments (mpcPolicyCallback ext self msg).1.events_ =
      initCallArguments self.events_ ++
        [(mpcPolicyCallback ext self msg).1.commandBuffer_.mpcInitObservation_] ∧
    (mpcPolicyCallback ext self msg).1.commandBuffer_ =
      (ext.modifyBufferPolicy
        { mpcInitObservation_ := ext.readObservationMsg msg.initObservation
          mpcCostDesiredTrajectories_ :=
            ext.readTargetTrajectoriesMsg msg.planTargetTrajectories }
        (decodedPrimal ext msg)).1 ∧
    ((∀ c p, (ext.modifyBufferPolicy c p).1.mpcInitObservation_ = c.mpcInitObservation_) →
      (mpcPolicyCallback ext self msg).1.initPlanObservation_ =
        ext.readObservationMsg msg.initObservation) := by
  obtain ⟨hupd, hret⟩ := hacc
  have hp := (mpcPolicyCallback_returned_iff ext self msg hupd).mp hret
  rw [mpcPolicyCallback_of_passesChecks ext self msg hupd hp]
  refine ⟨by simp [acceptedObject, hfirst],
    by simp [acceptedObject, hfirst, initCallArguments, List.filterMap_append],
    by simp [acceptedObject, decodedCommand], ?_⟩
  intro hkeep
  simp [acceptedObject, hfirst, hkeep, decodedCommand]

/-- C20 (witness): `policyA` on `idleObject` with the no-op hook. -/
theorem initCall_sees_staged_observation_witness :
    idleObject.policyReceivedEver_ = false ∧
    accepted sampleExternals idleObject policyA ∧
    (mpcPolicyCallback sampleExternals idleObject policyA).1.initPlanObservation_ =
      sampleExternals.readObservationMsg policyA.initObservation :=
  ⟨rfl, by decide,
    (initCall_sees_staged_observation sampleExternals idleObject policyA rfl (by decide)).2.2.2
      (fun _ _ => rfl)⟩

/-! ## Shutdown of the publisher -/

theorem publisherStep_terminated (pext : PublisherExternals) (self : PublisherState)
    (hterm : self.terminateThread_ = true) (action : PublisherAction) :
    (publisherStep pext self action).terminateThread_ = true ∧
    (publisherStep pext self action).published_ = self.published_ := by
  cases action with
  | post currentObservation => simp [publisherStep, setCurrentObservation, hterm]
  | worker => simp [publisherStep, publisherWorkerStep, hterm]

/-- C21: once `terminateThread_` is set, a round of the worker loop leaves the loop without
publishing and without touching the mailbox, whether or not an observation is pending; and
in no later run of posts and worker rounds is anything published. -/
theorem terminated_worker_never_publishes (pext : PublisherExternals) (self : PublisherState)
    (hterm : self.terminateThread_ = true) :
    publisherWorkerStep pext self = (self, WorkerStep.exited) ∧
    ∀ actions : List PublisherAction,
      (publisherRun pext self actions).published_ = self.published_ ∧
      (publisherRun pext self actions).terminateThread_ = true := by
  refine ⟨by simp [publisherWorkerStep, hterm], ?_⟩
  intro actions
  induction actions generalizing self with
  | nil => exact ⟨rfl, hterm⟩
  | cons a rest ih =>
    obtain ⟨h1, h2⟩ := publisherStep_terminated pext self hterm a
    obtain ⟨h3, h4⟩ := ih (publisherStep pext self a) h1
    exact ⟨h3.trans h2, h4⟩

/-- C21 (witness): an observation is posted to `idlePublisher` and `shutdownPublisher` runs
before the worker: the observation is pending, the worker round exits, and nothing is
published, also after a further post and worker round. -/
theorem terminated_worker_never_publishes_witness :
    (shutdownPublisher (setCurrentObservation samplePublisherExternals true idlePublisher
      (sampleObservation 1))).terminateThread_ = true ∧
    (shutdownPublisher (setCurrentObservation samplePublisherExternals true idlePublisher
      (sampleObservation 1))).readyToPublish_ = true ∧
    (publisherWorkerStep samplePublisherExternals
      (shutdownPublisher (setCurrentObservation samplePublisherExternals true idlePublisher
        (sampleObservation 1)))).2 = WorkerStep.exited ∧
    (publisherRun samplePublisherExternals
      (shutdownPublisher (setCurrentObservation samplePublisherExternals true idlePublisher
        (sampleObservation 1)))
      [PublisherAction.worker, PublisherAction.post (sampleObservation 2),
        PublisherAction.worker]).published_ = [] :=
  have h := terminated_worker_never_publishes samplePublisherExternals
    (shutdownPublisher (setCurrentObservation samplePublisherExternals true idlePublisher
      (sampleObservation 1))) rfl
  ⟨rfl, rfl, congrArg Prod.snd h.1,
    (h.2 [PublisherAction.worker, PublisherAction.post (sampleObservation 2),
      PublisherAction.worker]).1⟩

/-! ## The frame of the no-update message -/

/-- C22: a message with `controllerIsUpdated = false` leaves `policyReceivedEver_`,
`initPlanObservation_` and `partitioningTimesBuffer_` as they were and calls no hook: the
log of calls, which records `partitioningTimesUpdate`, `modifyBufferPolicy` and `initCall`,
is unchanged. -/
theorem no_update_frame (ext : Externals) (self : MRT_ROS_Interface)
    (msg : mpc_flattened_controller) (h : msg.controllerIsUpdated = false) :
    (mpcPolicyCallback ext self msg).1.policyReceivedEver_ = self.policyReceivedEver_ ∧
    (mpcPolicyCallback ext self msg).1.initPlanObservation_ = self.initPlanObservation_ ∧
    (mpcPolicyCallback ext self msg).1.partitioningTimesBuffer_ =
      self.partitioningTimesBuffer_ ∧
    (mpcPolicyCallback ext self msg).1.events_ = self.events_ := by
  simp [mpcPolicyCallback, h]

/-- C22 (witness): `noUpdateMsg` delivered after the accepted `policyA`. -/
theorem no_update_frame_witness :
    noUpdateMsg.controllerIsUpdated = false ∧
    (mpcPolicyCallback sampleExternals (deliver sampleExternals idleObject [policyA])
      noUpdateMsg).1.events_ = (deliver sampleExternals idleObject [policyA]).events_ ∧
    (mpcPolicyCallback sampleExternals (deliver sampleExternals idleObject [policyA])
      noUpdateMsg).1.policyReceivedEver_ = true :=
  have h := no_update_frame sampleExternals (deliver sampleExternals idleObject [policyA])
    noUpdateMsg (by decide)
  ⟨by decide, h.2.2.2, h.1.trans (by decide)⟩

/-! ## LoopshapingPreComputation -/

/-- What `request` does on an object whose two pointers are null together. -/
theorem request_caches_and_forwards_aux (self : LoopshapingPreComputation) (requestFlags : Request)
    (t : scalar_t) (x u : vector_t)
    (hinv : self.systemPreCompPtr_ = none ↔ self.filteredSystemPreCompPtr_ = none) :
    ∃ after : LoopshapingPreComputation,
      self.request requestFlags t x u = some after ∧
      after.x_system_ = self.loopshapingDefinition_.getSystemState x ∧
      after.u_system_ = self.loopshapingDefinition_.getSystemInput x u ∧
      after.x_filter_ = self.loopshapingDefinition_.getFilterState x ∧
      after.u_filter_ = self.loopshapingDefinition_.getFilteredInput x u ∧
      after.systemPreCompPtr_ =
        self.systemPreCompPtr_.map (fun system =>
          { system with
            received := system.received ++
              [PreComputationCall.request requestFlags t after.x_system_ after.u_system_] }) ∧
      (requestFlags.containsCost = true →
        after.filteredSystemPreCompPtr_ =
          self.filteredSystemPreCompPtr_.map (fun filtered =>
            { filtered with
              received := filtered.received ++
                [PreComputationCall.request requestFlags t after.x_system_ after.u_filter_] })) ∧
      (requestFlags.containsCost = false →
        after.filteredSystemPreCompPtr_ = self.filteredSystemPreCompPtr_) := by
  rcases hs : self.systemPreCompPtr_ with _ | system
  · have hf : self.filteredSystemPreCompPtr_ = none := hinv.mp hs
    refine ⟨{ self with
        x_system_ := self.loopshapingDefinition_.getSystemState x
        u_system_ := self.loopshapingDefinition_.getSystemInput x u
        x_filter_ := self.loopshapingDefinition_.getFilterState x
        u_filter_ := self.loopshapingDefinition_.getFilteredInput x u }, ?_, rfl, rfl, rfl, rfl,
      ?_, ?_, ?_⟩
    · simp only [LoopshapingPreComputation.request, hs]
    · simp [hs]
    · simp [hf]
    · simp
  · rcases hf : self.filteredSystemPreCompPtr_ with _ | filtered
    · rw [hinv.mpr hf] at hs
      exact absurd hs (by simp)
    · cases hc : requestFlags.containsCost
      · refine ⟨{ self with
            x_system_ := self.loopshapingDefinition_.getSystemState x
            u_system_ := self.loopshapingDefinition_.getSystemInput x u
            x_filter_ := self.loopshapingDefinition_.getFilterState x
            u_filter_ := self.loopshapingDefinition_.getFilteredInput x u
            systemPreCompPtr_ :=
              some (system.receive
                (PreComputationCall.request requestFlags t
                  (self.loopshapingDefinition_.getSystemState x)
                  (self.loopshapingDefinition_.getSystemInput x u))) }, ?_, rfl, rfl, rfl, rfl,
          ?_, ?_, ?_⟩
        · simp [LoopshapingPreComputation.request, hs, hc]
        · simp [PreComputation.receive]
        · simp
        · simp [hf]
      · refine ⟨{ self with
            x_system_ := self.loopshapingDefinition_.getSystemState x
            u_system_ := self.loopshapingDefinition_.getSystemInput x u
            x_filter_ := self.loopshapingDefinition_.getFilterState x
            u_filter_ := self.loopshapingDefinition_.getFilteredInput x u
            systemPreCompPtr_ :=
              some (system.receive
                (PreComputationCall.request requestFlags t
                  (self.loopshapingDefinition_.getSystemState x)
                  (self.loopshapingDefinition_.getSystemInput x u)))
            filteredSystemPreCompPtr_ :=
              some (filtered.receive
                (PreComputationCall.request requestFlags t
                  (self.loopshapingDefinition_.getSystemState x)
                  (self.loopshapingDefinition_.getFilteredInput x u))) }, ?_, rfl, rfl, rfl,
          rfl, ?_, ?_, ?_⟩
        · simp [LoopshapingPreComputation.request, hs, hf, hc]
        · simp [PreComputation.receive]
        · simp [PreComputation.receive]
        · simp

/-- C23: on an object whose two pointers are null together, `request` returns and sets the four
caches to `getSystemState(x)`, `getSystemInput(x, u)`, `getFilterState(x)` and
`getFilteredInput(x, u)`; the system pre-computation, when it exists, receives exactly one
more call, `request(flags, t, x_system_, u_system_)`; the filtered pre-computation
receives one more call, `request(flags, t, x_system_, u_filter_)`, when the flags contain
`Request::Cost`, and none otherwise. -/
theorem request_caches_and_forwards (self : LoopshapingPreComputation) (requestFlags : Request)
    (t : scalar_t) (x u : vector_t)
    (hinv : self.systemPreCompPtr_ = none ↔ self.filteredSystemPreCompPtr_ = none) :
    ∃ after : LoopshapingPreComputation,
      self.request requestFlags t x u = some after ∧
      after.x_system_ = self.loopshapingDefinition_.getSystemState x ∧
      after.u_system_ = self.loopshapingDefinition_.getSystemInput x u ∧
      after.x_filter_ = self.loopshapingDefinition_.getFilterState x ∧
      after.u_filter_ = self.loopshapingDefinition_.getFilteredInput x u ∧
      after.systemPreCompPtr_ =
        self.systemPreCompPtr_.map (fun system =>
          { system with
            received := system.received ++
              [PreComputationCall.request requestFlags t after.x_system_ after.u_system_] }) ∧
      (requestFlags.containsCost = true →
        after.filteredSystemPreCompPtr_ =
          self.filteredSystemPreCompPtr_.map (fun filtered =>
            { filtered with
              received := filtered.received ++
                [PreComputationCall.request requestFlags t after.x_system_ after.u_filter_] })) ∧
      (requestFlags.containsCost = false →
        after.filteredSystemPreCompPtr_ = self.filteredSystemPreCompPtr_) :=
  request_caches_and_forwards_aux self requestFlags t x u hinv

/-- C23 (witness): a request with the `Cost` flag on the sample object. -/
theorem request_caches_and_forwards_witness :
    ∃ after : LoopshapingPreComputation,
      sampleLoopshaping.request costFlags 3 [1, 2] [5] = some after ∧
      after.x_system_ = [1] ∧ after.u_system_ = [5] ∧ after.x_filter_ = [2] ∧
      after.u_filter_ = [2, 5] :=
  have h := request_caches_and_forwards sampleLoopshaping costFlags 3 [1, 2] [5]
    (by simp [sampleLoopshaping, LoopshapingPreComputation.new])
  h.elim fun after hafter =>
    ⟨after, hafter.1, hafter.2.1.trans rfl, hafter.2.2.1.trans rfl, hafter.2.2.2.1.trans rfl,
      hafter.2.2.2.2.1.trans rfl⟩

theorem copy_pointers (clone : PreComputation → PreComputation)
    (other result : LoopshapingPreComputation)
    (hinv : other.systemPreCompPtr_ = none ↔ other.filteredSystemPreCompPtr_ = none)
    (h : LoopshapingPreComputation.copy clone other = some result) :
    result.systemPreCompPtr_ = other.systemPreCompPtr_.map clone ∧
    result.filteredSystemPreCompPtr_ = other.filteredSystemPreCompPtr_.map clone ∧
    result.loopshapingDefinition_ = other.loopshapingDefinition_ := by
  unfold LoopshapingPreComputation.copy at h
  rcases hs : other.systemPreCompPtr_ with _ | system
  · have hf := hinv.mp hs
    simp only [hs, Option.some.injEq] at h
    rw [← h, hf]
    simp
  · rcases hf : other.filteredSystemPreCompPtr_ with _ | filtered
    · simp [hs, hf] at h
    · simp only [hs, hf, Option.some.injEq] at h
      rw [← h]
      simp

theorem request_pointers (self result : LoopshapingPreComputation) (requestFlags : Request)
    (t : scalar_t) (x u : vector_t)
    (h : self.request requestFlags t x u = some result) :
    (result.systemPreCompPtr_ = none ↔ self.systemPreCompPtr_ = none) ∧
    (result.filteredSystemPreCompPtr_ = none ↔ self.filteredSystemPreCompPtr_ = none) := by
  unfold LoopshapingPreComputation.request at h
  rcases hs : self.systemPreCompPtr_ with _ | system
  · simp only [hs, Option.some.injEq] at h
    rw [← h]
    simp [hs]
  · cases hc : requestFlags.containsCost
    · simp only [hs, hc, Bool.false_eq_true, if_false, Option.some.injEq] at h
      rw [← h]
      simp
    · rcases hf : self.filteredSystemPreCompPtr_ with _ | filtered
      · simp [hs, hc, hf] at h
      · simp only [hs, hc, hf, if_true, Option.some.injEq] at h
        rw [← h]
        simp

theorem requestPreJump_pointers (self : LoopshapingPreComputation) (requestFlags : Request)
    (t : scalar_t) (x : vector_t) :
    ((self.requestPreJump requestFlags t x).systemPreCompPtr_ = none ↔
      self.systemPreCompPtr_ = none) ∧
    (self.requestPreJump requestFlags t x).filteredSystemPreCompPtr_ =
      self.filteredSystemPreCompPtr_ := by
  unfold LoopshapingPreComputation.requestPreJump
  rcases hs : self.systemPreCompPtr_ with _ | system <;> simp [hs]

theorem requestFinal_pointers (self : LoopshapingPreComputation) (requestFlags : Request)
    (t : scalar_t) (x : vector_t) :
    ((self.requestFinal requestFlags t x).systemPreCompPtr_ = none ↔
      self.systemPreCompPtr_ = none) ∧
    (self.requestFinal requestFlags t x).filteredSystemPreCompPtr_ =
      self.filteredSystemPreCompPtr_ := by
  unfold LoopshapingPreComputation.requestFinal
  rcases hs : self.systemPreCompPtr_ with _ | system <;> simp [hs]

/-- The two pointers of an object a program can hold are null together. -/
theorem built_invariant (clone : PreComputation → PreComputation)
    (self : LoopshapingPreComputation) (h : LoopshapingPreComputation.Built clone self) :
    self.systemPreCompPtr_ = none ↔ self.filteredSystemPreCompPtr_ = none := by
  induction h with
  | new systemPreComputation loopshapingDefinition =>
    simp [LoopshapingPreComputation.new]
  | copy other result _ hcopy ih =>
    obtain ⟨h1, h2, _⟩ := copy_pointers clone other result ih hcopy
    rw [h1, h2]
    simpa using ih
  | clone other result _ hclone ih =>
    obtain ⟨h1, h2, _⟩ := copy_pointers clone other result ih hclone
    rw [h1, h2]
    simpa using ih
  | request other result requestFlags t x u _ hreq ih =>
    obtain ⟨h1, h2⟩ := request_pointers other result requestFlags t x u hreq
    rw [h1, h2]
    exact ih
  | requestPreJump other requestFlags t x _ ih =>
    obtain ⟨h1, h2⟩ := requestPreJump_pointers other requestFlags t x
    rw [h1, h2]
    exact ih
  | requestFinal other requestFlags t x _ ih =>
    obtain ⟨h1, h2⟩ := requestFinal_pointers other requestFlags t x
    rw [h1, h2]
    exact ih

/-- C24: for every object made by the constructor, the copy constructor or `clone()` (and
used through the request members), `systemPreCompPtr_` is null if and only if
`filteredSystemPreCompPtr_` is null; hence `request` never dereferences a null
`filteredSystemPreCompPtr_`, the copy constructor and `clone()` never do either, and
the copy holds clones of both pre-computations and the same `loopshapingDefinition_`. -/
theorem pointers_null_together (clone : PreComputation → PreComputation)
    (self : LoopshapingPreComputation) (h : LoopshapingPreComputation.Built clone self) :
    (self.systemPreCompPtr_ = none ↔ self.filteredSystemPreCompPtr_ = none) ∧
    (∀ (requestFlags : Request) (t : scalar_t) (x u : vector_t),
      (self.request requestFlags t x u).isSome = true) ∧
    ∃ result : LoopshapingPreComputation,
      LoopshapingPreComputation.copy clone self = some result ∧
      LoopshapingPreComputation.clone clone self = some result ∧
      result.systemPreCompPtr_ = self.systemPreCompPtr_.map clone ∧
      result.filteredSystemPreCompPtr_ = self.filteredSystemPreCompPtr_.map clone ∧
      result.loopshapingDefinition_ = self.loopshapingDefinition_ := by
  have hinv := built_invariant clone self h
  refine ⟨hinv, ?_, ?_⟩
  · intro requestFlags t x u
    obtain ⟨after, hafter, _⟩ := request_caches_and_forwards_aux self requestFlags t x u hinv
    rw [hafter]
    rfl
  · have hsome : ∃ result, LoopshapingPreComputation.copy clone self = some result := by
      unfold LoopshapingPreComputation.copy
      rcases hs : self.systemPreCompPtr_ with _ | system
      · exact ⟨_, rfl⟩
      · rcases hf : self.filteredSystemPreCompPtr_ with _ | filtered
        · rw [hinv.mpr hf] at hs
          exact absurd hs (by simp)
        · exact ⟨_, rfl⟩
    obtain ⟨result, hresult⟩ := hsome
    obtain ⟨h1, h2, h3⟩ := copy_pointers clone self result hinv hresult
    exact ⟨result, hresult, hresult, h1, h2, h3⟩

/-- C24 (witness): the sample object made by the constructor. -/
theorem pointers_null_together_witness :
    (sampleLoopshaping.systemPreCompPtr_ = none ↔
      sampleLoopshaping.filteredSystemPreCompPtr_ = none) ∧
    ∀ (requestFlags : Request) (t : scalar_t) (x u : vector_t),
      (sampleLoopshaping.request requestFlags t x u).isSome = true :=
  have h := pointers_null_together sampleClone sampleLoopshaping
    (LoopshapingPreComputation.Built.new samplePreComputation sampleDefinition)
  ⟨h.1, h.2.1⟩

/-- C25: `requestPreJump` and `requestFinal` set `x_system_` to `getSystemState(x)` and
`x_filter_` to `getFilterState(x)` and leave `u_system_` and `u_filter_` as they were; the
system pre-computation, when it exists, receives exactly one more call,
`requestPreJump(flags, t, x_system_)` or `requestFinal(flags, t, x_system_)`; the
filtered pre-computation is left as it was. -/
theorem requestPreJump_requestFinal_frame (self : LoopshapingPreComputation)
    (requestFlags : Request) (t : scalar_t) (x : vector_t) :
    ((self.requestPreJump requestFlags t x).x_system_ =
        self.loopshapingDefinition_.getSystemState x ∧
      (self.requestPreJump requestFlags t x).x_filter_ =
        self.loopshapingDefinition_.getFilterState x ∧
      (self.requestPreJump requestFlags t x).u_system_ = self.u_system_ ∧
      (self.requestPreJump requestFlags t x).u_filter_ = self.u_filter_ ∧
      (self.requestPreJump requestFlags t x).systemPreCompPtr_ =
        self.systemPreCompPtr_.map (fun system =>
          { system with
            received := system.received ++
              [PreComputationCall.requestPreJump requestFlags t
                (self.loopshapingDefinition_.getSystemState x)] }) ∧
      (self.requestPreJump requestFlags t x).filteredSystemPreCompPtr_ =
        self.filteredSystemPreCompPtr_) ∧
    ((self.requestFinal requestFlags t x).x_system_ =
        self.loopshapingDefinition_.getSystemState x ∧
      (self.requestFinal requestFlags t x).x_filter_ =
        self.loopshapingDefinition_.getFilterState x ∧
      (self.requestFinal requestFlags t x).u_system_ = self.u_system_ ∧
      (self.requestFinal requestFlags t x).u_filter_ = self.u_filter_ ∧
      (self.requestFinal requestFlags t x).systemPreCompPtr_ =
        self.systemPreCompPtr_.map (fun system =>
          { system with
            received := system.received ++
              [PreComputationCall.requestFinal requestFlags t
                (self.loopshapingDefinition_.getSystemState x)] }) ∧
      (self.requestFinal requestFlags t x).filteredSystemPreCompPtr_ =
        self.filteredSystemPreCompPtr_) := by
  constructor
  · unfold LoopshapingPreComputation.requestPreJump
    rcases hs : self.systemPreCompPtr_ with _ | system <;> simp [hs, PreComputation.receive]
  · unfold LoopshapingPreComputation.requestFinal
    rcases hs : self.systemPreCompPtr_ with _ | system <;> simp [hs, PreComputation.receive]

end ocs2
